import Mathlib

/-!
Verification of the chat workflow orchestration core of the `causol`
repository: the intent planner's keyword fallback classifier, the
prerequisite checker, the stage router (session manager) and the stage
agents (Formulation, EDA, Estimation), shallowly embedded from the
TypeScript source.  External collaborators (the LLM completion service,
the JSON library, the Jupyter code executor, the display sink) are
modelled as oracle inputs; everything the repository itself computes is
translated directly from the source files.
-/

namespace Causol

/-! ## String utilities modelling the JavaScript primitives used by the source -/

/-- First index at which `needle` starts inside `hay`. -/
def findSubIdx (needle : List Char) : List Char → Option Nat
  | [] => if needle.isEmpty then some 0 else none
  | c :: t =>
    if needle.isPrefixOf (c :: t) then some 0
    else (findSubIdx needle t).map (· + 1)

/-- JavaScript `haystack.includes(needle)`: substring containment. -/
def strIncludes (haystack needle : String) : Bool :=
  (findSubIdx needle.toList haystack.toList).isSome

/-- JS `toLowerCase()` (structurally recursive so that closed evaluations
reduce in the kernel; the messages involved are ASCII, where this agrees
with JS). -/
def toLowerStr (s : String) : String :=
  String.mk (s.toList.map Char.toLower)

/-- Split on a single separator character (JS `split(sep)` semantics). -/
def splitOnSep (sep : Char) (s : String) : List String :=
  (s.toList.foldr
    (fun c acc =>
      match acc with
      | [] => [[c]]
      | a :: rest => if c = sep then [] :: (a :: rest) else (c :: a) :: rest)
    [[]]).map String.mk

/-- JS `\s` whitespace (ASCII part) used by `trim` and the item-prefix
strips. -/
def isJsWhitespace (c : Char) : Bool :=
  c = ' ' || c = '\t' || c = '\n' || c = '\r' || c = '\x0b' || c = '\x0c'

/-- JS `trim()`. -/
def trimStr (s : String) : String :=
  String.mk (((s.toList.dropWhile isJsWhitespace).reverse.dropWhile isJsWhitespace).reverse)

/-- JS `startsWith(p)`. -/
def strStartsWith (s p : String) : Bool :=
  p.toList.isPrefixOf s.toList

/-- Truthiness of a JS string value that may be `undefined`:
`undefined` and the empty string are falsy. -/
def strTruthy : Option String → Bool
  | none => false
  | some s => s ≠ ""

/-- JS `value || dflt` for a possibly-undefined string value. -/
def strOr (v : Option String) (dflt : String) : String :=
  match v with
  | none => dflt
  | some s => if s = "" then dflt else s

/-- Drop everything up to and including the first occurrence of `p`
(`none` when `p` does not occur).  Used to model regular-expression
searches `lit.*` where the engine commits to the leftmost occurrence. -/
def dropAfterFirstOcc (p : List Char) : List Char → Option (List Char)
  | [] => if p.isEmpty then some [] else none
  | c :: t =>
    if p.isPrefixOf (c :: t) then some ((c :: t).drop p.length)
    else dropAfterFirstOcc p t

/-- Does `s` contain the literals of `pats` as substrings, in order
(the semantics of the regex `p₁.*p₂.*…` restricted to one line)? -/
def containsSeqChars : List (List Char) → List Char → Bool
  | [], _ => true
  | p :: ps, s =>
    match dropAfterFirstOcc p s with
    | some rest => containsSeqChars ps rest
    | none => false

/-- Search semantics of a JS regex `l₁.*l₂.*…` over a whole string: the
dot does not match a newline, and the literals contain none, so the
regex matches exactly when some line contains the literals in order. -/
def regexSeq (pats : List String) (s : String) : Bool :=
  (splitOnSep '\n' s).any (fun line => containsSeqChars (pats.map String.toList) line.toList)

/-- The regex `/what.*(your|ur).*name/` from the planner's greeting check. -/
def greetingNameRegex (s : String) : Bool :=
  (splitOnSep '\n' s).any fun line =>
    match dropAfterFirstOcc "what".toList line.toList with
    | none => false
    | some r1 =>
      (match dropAfterFirstOcc "your".toList r1 with
       | some r2 => containsSeqChars ["name".toList] r2
       | none => false)
      ||
      (match dropAfterFirstOcc "ur".toList r1 with
       | some r2 => containsSeqChars ["name".toList] r2
       | none => false)

/-- Model of the lazy capture regex `/openD([\s\S]*?)closeD/`: the text
between the first occurrence of `openD` and the first following
occurrence of `closeD`. -/
def extractBetween (openD closeD s : String) : Option String :=
  match findSubIdx openD.toList s.toList with
  | none => none
  | some i =>
    let rest := (s.toList.drop (i + openD.toList.length))
    match findSubIdx closeD.toList rest with
    | none => none
    | some j => some (String.mk (rest.take j))

/-- Model of the greedy JSON extraction regex `/\x7b[\s\S]*\x7d/`:
matches from the first opening brace to the last closing brace. -/
def extractJsonBlock (s : String) : Option String :=
  let cs := s.toList
  match findSubIdx ['\x7b'] cs with
  | none => none
  | some i =>
    let n := cs.length
    let js := (List.range n).filter (fun k => (cs.drop k).take 1 == ['\x7d'])
    match js.getLast? with
    | none => none
    | some j => if i < j then some (String.mk ((cs.drop i).take (j - i + 1))) else none

/-! ## Data model (src/types/workflow.types.ts, src/agents/planner-agent.ts,
src/types/agent.types.ts) -/

/-- `WorkflowStage` enum from src/types/workflow.types.ts. -/
inductive WorkflowStage
  | formulation
  | eda
  | dag
  | identification
  | estimation
deriving DecidableEq, Repr

/-- The string value each enum member carries in the source. -/
def WorkflowStage.str : WorkflowStage → String
  | .formulation => "formulation"
  | .eda => "eda"
  | .dag => "dag"
  | .identification => "identification"
  | .estimation => "estimation"

/-- Position of a stage in the fixed order Formulation, EDA, DAG,
Identification, Estimation. -/
def stageIdx : WorkflowStage → Nat
  | .formulation => 0
  | .eda => 1
  | .dag => 2
  | .identification => 3
  | .estimation => 4

/-- `DatasetInfo` as used by the orchestrator (name, rows, columns). -/
structure DatasetInfo where
  name : String
  rows : Int
  columns : List String
deriving DecidableEq, Repr

/-- `CausalEstimate` (effect, method); only presence matters to the core. -/
structure CausalEstimate where
  effect : Int
  method : String
deriving DecidableEq, Repr

/-- `SharedContext`.  Every optional TS field is an `Option`; `confounders`
is declared as a required `string[]`, but we model it as an `Option` too so
that the "never `undefined`" invariant is a theorem about the reachable
states rather than a typing artefact. -/
structure SharedContext where
  treatment : Option String := none
  outcome : Option String := none
  confounders : Option (List String) := none
  dataset : Option DatasetInfo := none
  adjustmentSet : Option (List String) := none
  estimate : Option CausalEstimate := none
deriving DecidableEq, Repr

/-- `intent.type` values of the planner. -/
inductive IntentType
  | formulation
  | eda
  | estimation
  | dag
  | identification
  | general_question
  | workflow_control
  | dataset_operation
deriving DecidableEq, Repr

/-- `PlannerIntent` from src/agents/planner-agent.ts. -/
structure PlannerIntent where
  type : IntentType
  subtype : Option String := none
  userGoal : String
  requiresDataset : Bool
  requiresPriorStages : List WorkflowStage
deriving DecidableEq, Repr

/-- `CausalSpecification` from src/agents/planner-agent.ts. -/
structure CausalSpecification where
  researchQuestion : Option String := none
  treatment : Option String := none
  outcome : Option String := none
  confounders : Option (List String) := none
  assumptionsToCheck : Option (List String) := none
  estimationMethod : Option String := none
  dataRequirements : Option (List String) := none
deriving DecidableEq, Repr

/-- `ExecutionStep` from src/agents/planner-agent.ts. -/
structure ExecutionStep where
  stepNumber : Nat
  agent : String
  action : String
  input : String
  expectedOutput : String
  dependsOn : Option (List Nat) := none
deriving DecidableEq, Repr

/-- `ExecutionPlan` from src/agents/planner-agent.ts. -/
structure ExecutionPlan where
  steps : List ExecutionStep
  estimatedDuration : String
  prerequisites : List String
  expectedOutputs : List String
deriving DecidableEq, Repr

/-- `PlannerResult`.  `confidence` is a rational; the source only ever
compares it against, and assigns it, short decimal literals. -/
structure PlannerResult where
  intent : PlannerIntent
  causalSpec : CausalSpecification
  executionPlan : ExecutionPlan
  confidence : ℚ
  reasoning : String
deriving DecidableEq, Repr

/-- `feedback.type` values of an `AgentResult`. -/
inductive FeedbackType
  | error
  | warning
  | info
  | success
deriving DecidableEq, Repr

/-- `AgentResult.feedback` from src/types/agent.types.ts. -/
structure Feedback where
  type : FeedbackType
  message : String
  suggestedAction : Option String := none
deriving DecidableEq, Repr

/-- `AgentResult`, generic over the stage-specific `data` payload.  A JS
`undefined` field is `none`; `suggestedNextSteps` is `[]` when absent
(the router only ever checks emptiness, which coincides). -/
structure AgentResult (α : Type) where
  success : Bool
  data : Option α := none
  error : Option String := none
  feedback : Option Feedback := none
  suggestedNextSteps : List String := []
  requiresIteration : Bool
deriving DecidableEq, Repr

/-- `BaseCausalAgent.createSuccessResult`. -/
def createSuccessResult {α : Type} (data : α) (suggestedNextSteps : List String) :
    AgentResult α :=
  { success := true
    data := some data
    suggestedNextSteps := suggestedNextSteps
    requiresIteration := false }

/-- `BaseCausalAgent.createErrorResult` (the `error.message` string stands
for the thrown `Error`). -/
def createErrorResult {α : Type} (message : String) (suggestedAction : Option String) :
    AgentResult α :=
  { success := false
    error := some message
    feedback := some { type := .error, message := message, suggestedAction := suggestedAction }
    requiresIteration := false }

/-- `BaseCausalAgent.createIterationResult`. -/
def createIterationResult {α : Type} (data : α) (feedbackMessage suggestedAction : String) :
    AgentResult α :=
  { success := true
    data := some data
    feedback := some { type := .warning, message := feedbackMessage,
                       suggestedAction := some suggestedAction }
    requiresIteration := true }

/-! ## PlannerAgent.fallbackAnalysis (keyword classifier used when the
completion service fails or returns unparseable output) -/

/-- Greeting condition: `hello`/`hi`/`hey` substrings or the two
conversational regexes. -/
def greetingCond (lowerMsg : String) : Bool :=
  strIncludes lowerMsg "hello" ||
  strIncludes lowerMsg "hi" ||
  strIncludes lowerMsg "hey" ||
  greetingNameRegex lowerMsg ||
  regexSeq ["who", "are", "you"] lowerMsg

/-- Help-request condition. -/
def helpCond (lowerMsg : String) : Bool :=
  strIncludes lowerMsg "help" ||
  strIncludes lowerMsg "how do i" ||
  strIncludes lowerMsg "how to" ||
  strIncludes lowerMsg "can you help"

/-- Single-token affirmative condition (exact equality checks). -/
def affirmativeCond (lowerMsg : String) : Bool :=
  lowerMsg == "yes" || lowerMsg == "yeah" || lowerMsg == "sure" ||
  lowerMsg == "ok" || lowerMsg == "okay" || lowerMsg == "y"

/-- Causal-question condition of the formulation branch. -/
def formulationCond (lowerMsg : String) : Bool :=
  strIncludes lowerMsg "effect of" || strIncludes lowerMsg "does" ||
  strIncludes lowerMsg "cause"

/-- Exploration condition of the EDA branch. -/
def edaCond (lowerMsg : String) : Bool :=
  strIncludes lowerMsg "explore" || strIncludes lowerMsg "check assumptions" ||
  strIncludes lowerMsg "eda"

/-- Estimation condition. -/
def estimationCond (lowerMsg : String) : Bool :=
  strIncludes lowerMsg "estimate" || strIncludes lowerMsg "calculate"

/-- The reasoning string shared by the tail (keyword-stage) branches. -/
def fallbackReasoning : String :=
  "Fallback keyword-based analysis (LLM analysis failed)"

/-- `PlannerAgent.fallbackAnalysis`: keyword-based intent detection in the
source's priority order.  The greeting, help and affirmative checks return
early with their own confidences; the remaining branches share the final
`confidence: 0.6` fallback return. -/
def fallbackAnalysis (message : String) (context : SharedContext) : PlannerResult :=
  let lowerMsg := toLowerStr message
  if greetingCond lowerMsg then
    { intent := { type := .general_question, subtype := some "greeting",
                  userGoal := "Greet or learn about the assistant",
                  requiresDataset := false, requiresPriorStages := [] }
      causalSpec := {}
      executionPlan :=
        { steps := [{ stepNumber := 1, agent := "Assistant",
                      action := "Introduce myself and explain capabilities",
                      input := message, expectedOutput := "Friendly greeting and overview" }]
          estimatedDuration := "5 seconds", prerequisites := []
          expectedOutputs := ["Introduction and capabilities overview"] }
      confidence := 0.95
      reasoning := "Detected greeting or introduction request" }
  else if helpCond lowerMsg then
    { intent := { type := .general_question, subtype := some "help",
                  userGoal := "Get help with specific task",
                  requiresDataset := false, requiresPriorStages := [] }
      causalSpec := {}
      executionPlan :=
        { steps := [{ stepNumber := 1, agent := "Assistant",
                      action := "Provide specific help based on question",
                      input := message, expectedOutput := "Actionable guidance" }]
          estimatedDuration := "5 seconds", prerequisites := []
          expectedOutputs := ["Step-by-step instructions or guidance"] }
      confidence := 0.9
      reasoning := "Detected help request" }
  else if affirmativeCond lowerMsg then
    { intent := { type := .workflow_control, subtype := some "affirmative",
                  userGoal := "Confirm or agree to previous suggestion",
                  requiresDataset := false, requiresPriorStages := [] }
      causalSpec := {}
      executionPlan :=
        { steps := [{ stepNumber := 1, agent := "Assistant",
                      action := "Act on previous question or suggestion",
                      input := message, expectedOutput := "Follow-up action" }]
          estimatedDuration := "5 seconds", prerequisites := []
          expectedOutputs := ["Appropriate follow-up action"] }
      confidence := 0.85
      reasoning := "Detected affirmative response" }
  else
    let (intent, causalSpec, executionPlan) :=
      if formulationCond lowerMsg then
        ({ type := .formulation, userGoal := "Formulate a causal research question",
           requiresDataset := false, requiresPriorStages := [] : PlannerIntent },
         { researchQuestion := some message : CausalSpecification },
         { steps := [{ stepNumber := 1, agent := "FormulationAgent",
                       action := "Extract treatment, outcome, and confounders from research question",
                       input := message, expectedOutput := "Structured causal specification" }]
           estimatedDuration := "30 seconds", prerequisites := []
           expectedOutputs := ["Treatment variable", "Outcome variable", "List of confounders"]
           : ExecutionPlan })
      else if edaCond lowerMsg then
        ({ type := .eda, userGoal := "Perform exploratory data analysis",
           requiresDataset := true, requiresPriorStages := [WorkflowStage.formulation]
           : PlannerIntent },
         { treatment := context.treatment, outcome := context.outcome,
           confounders := context.confounders
           assumptionsToCheck := some ["Positivity", "SUTVA", "No unmeasured confounding"]
           : CausalSpecification },
         { steps := [{ stepNumber := 1, agent := "EDAAgent",
                       action := "Check causal assumptions and data quality",
                       input := message, expectedOutput := "Assumption validation results" }]
           estimatedDuration := "1-2 minutes"
           prerequisites := ["Dataset loaded", "Variables defined"]
           expectedOutputs := ["Data quality report", "Assumption checks",
                               "Visualization suggestions"] : ExecutionPlan })
      else if estimationCond lowerMsg then
        ({ type := .estimation, userGoal := "Estimate causal effect",
           requiresDataset := true
           requiresPriorStages := [WorkflowStage.formulation, WorkflowStage.eda]
           : PlannerIntent },
         { treatment := context.treatment, outcome := context.outcome,
           confounders := context.confounders
           estimationMethod := some "Regression adjustment with confounders"
           : CausalSpecification },
         { steps := [{ stepNumber := 1, agent := "EstimationAgent",
                       action := "Estimate average treatment effect",
                       input := message
                       expectedOutput := "Causal effect estimate with confidence interval" }]
           estimatedDuration := "1-2 minutes"
           prerequisites := ["Dataset loaded", "Variables defined", "Assumptions checked"]
           expectedOutputs := ["Treatment effect estimate", "Standard error",
                               "Confidence interval"] : ExecutionPlan })
      else
        ({ type := .general_question, userGoal := "Get information or guidance",
           requiresDataset := false, requiresPriorStages := [] : PlannerIntent },
         {},
         { steps := [{ stepNumber := 1, agent := "PlannerAgent", action := "Provide guidance",
                       input := message, expectedOutput := "Helpful response" }]
           estimatedDuration := "5 seconds", prerequisites := []
           expectedOutputs := ["Guidance message"] : ExecutionPlan })
    { intent := intent, causalSpec := causalSpec, executionPlan := executionPlan
      confidence := 0.6
      reasoning := fallbackReasoning }

/-! ## ChatWorkflowOrchestrator.checkPrerequisites -/

/-- The missing-precondition string for an unformulated research question. -/
def formulationMissingStr : String :=
  "Research question needs to be formulated (treatment and outcome defined)"

/-- The missing-precondition string for a missing dataset. -/
def datasetMissingStr : String := "Dataset needs to be loaded"

/-- The missing-precondition string for incomplete EDA. -/
def edaMissingStr : String := "Exploratory data analysis needs to be completed"

/-- One iteration of the prior-stage loop of `checkPrerequisites`. -/
def prereqStageStep (context : SharedContext) (acc : List String)
    (requiredStage : WorkflowStage) : List String :=
  let acc :=
    if requiredStage = WorkflowStage.formulation &&
        (!(strTruthy context.treatment) || !(strTruthy context.outcome)) then
      acc ++ [formulationMissingStr]
    else acc
  if requiredStage = WorkflowStage.eda && context.dataset.isNone then
    acc ++ [edaMissingStr]
  else acc

/-- One iteration of the plan-prerequisite loop of `checkPrerequisites`. -/
def prereqPlanStep (context : SharedContext) (acc : List String) (prereq : String) :
    List String :=
  if strIncludes (toLowerStr prereq) "dataset" && context.dataset.isNone then
    if !(acc.any (fun m => strIncludes m "Dataset")) then acc ++ [prereq] else acc
  else acc

/-- `checkPrerequisites(plannerResult)` over the current shared context:
dataset rule, prior-stage rules, then the dataset-mentioning strings of
the plan's own prerequisites, deduplicated against entries containing
`"Dataset"`. -/
def checkPrerequisites (plannerResult : PlannerResult) (context : SharedContext) :
    List String :=
  let missing : List String := []
  let missing :=
    if plannerResult.intent.requiresDataset && context.dataset.isNone then
      missing ++ [datasetMissingStr]
    else missing
  let missing := plannerResult.intent.requiresPriorStages.foldl
    (prereqStageStep context) missing
  let missing := plannerResult.executionPlan.prerequisites.foldl
    (prereqPlanStep context) missing
  missing

/-! ## FormulationAgent (problem formulation) -/

/-- The JSON object shape `JSON.parse` can yield for a formulation reply
(`JSON.parse` itself is an external library, supplied as an oracle
`String → Option FormJson`; `none` models a parse exception). -/
structure FormJson where
  treatment : Option String := none
  outcome : Option String := none
  population : Option String := none
  issues : Option (List String) := none
  suggestions : Option (List String) := none
  feasibility : Option String := none
  refinedQuestion : Option String := none
deriving DecidableEq, Repr

/-- `FormulationResult` from the formulation agent. -/
structure FormulationResult where
  treatment : String
  outcome : String
  population : String
  issues : List String
  suggestions : List String
  feasibility : String
  refinedQuestion : String
deriving DecidableEq, Repr

/-- `FormulationAgent.extractField`: first line containing the keyword,
split on `:`, remainder re-joined and trimmed. -/
def extractField (lines : List String) (keyword : String) : Option String :=
  match lines.find? (fun l => strIncludes (toLowerStr l) (toLowerStr keyword)) with
  | none => none
  | some line =>
    let parts := splitOnSep ':' line
    if parts.length > 1 then some (trimStr (String.intercalate ":" (parts.drop 1)))
    else none

/-- State of the `extractList` scan: accumulated items and the `inList` flag. -/
structure ExtractListState where
  items : List String
  inList : Bool
deriving DecidableEq, Repr

/-- Does the line start with an ASCII capital (regex `/^[A-Z]/`)? -/
def startsWithCapital (line : String) : Bool :=
  match line.toList with
  | [] => false
  | c :: _ => 'A' ≤ c && c ≤ 'Z'

/-- Does the line match `/^\d+\./`? -/
def startsWithNumberDot (line : String) : Bool :=
  match line.toList with
  | [] => false
  | c :: rest =>
    c.isDigit &&
    match (rest.dropWhile Char.isDigit) with
    | '.' :: _ => true
    | _ => false

/-- `line.replace(/^[-•]\s*/, '')`. -/
def stripBulletPrefix (line : String) : String :=
  match line.toList with
  | '-' :: rest => String.mk (rest.dropWhile isJsWhitespace)
  | '•' :: rest => String.mk (rest.dropWhile isJsWhitespace)
  | cs => String.mk cs

/-- `line.replace(/^\d+\.\s*/, '')`. -/
def stripNumberDotPrefix (line : String) : String :=
  if startsWithNumberDot line then
    let rest := line.toList.dropWhile Char.isDigit
    match rest with
    | '.' :: t => String.mk (t.dropWhile isJsWhitespace)
    | _ => line
  else line

/-- One loop iteration of `FormulationAgent.extractList`. -/
def extractListStep (keywords : List String) (st : ExtractListState) (line : String) :
    ExtractListState :=
  let lowerLine := toLowerStr line
  if keywords.any (fun kw => strIncludes lowerLine kw) then
    { st with inList := true }
  else if st.inList && (line == "" || startsWithCapital line) then
    if startsWithCapital line then { st with inList := false } else st
  else if st.inList &&
      (strStartsWith line "-" || strStartsWith line "•" || startsWithNumberDot line) then
    { st with items := st.items ++ [trimStr (stripNumberDotPrefix (stripBulletPrefix line))] }
  else st

/-- `FormulationAgent.extractList`. -/
def extractList (lines : List String) (keywords : List String) : List String :=
  (lines.foldl (extractListStep keywords) { items := [], inList := false }).items

/-- `FormulationAgent.parseStructuredText` fallback parser. -/
def parseStructuredText (response originalQuestion : String) : FormulationResult :=
  let lines := (splitOnSep '\n' response).map trimStr
  { treatment := strOr (extractField lines "treatment") "Not specified"
    outcome := strOr (extractField lines "outcome") "Not specified"
    population := strOr (extractField lines "population") "General population"
    issues := extractList lines ["issues", "issue"]
    suggestions := extractList lines ["suggestions", "suggestion"]
    feasibility := "MEDIUM"
    refinedQuestion := strOr (extractField lines "refined") originalQuestion }

/-- The result `parseFormulationResponse` builds when `JSON.parse` throws. -/
def formulationParseFailResult (originalQuestion : String) : FormulationResult :=
  { treatment := "Unable to extract treatment"
    outcome := "Unable to extract outcome"
    population := "General population"
    issues := ["Failed to parse agent response"]
    suggestions := ["Please rephrase the research question more clearly"]
    feasibility := "LOW"
    refinedQuestion := originalQuestion }

/-- `FormulationAgent.parseFormulationResponse`: strict JSON extraction,
then structured-text fallback; a parse exception yields the basic
fallback result. -/
def parseFormulationResponse (jp : String → Option FormJson)
    (response originalQuestion : String) : FormulationResult :=
  match extractJsonBlock response with
  | some block =>
    match jp block with
    | some parsed =>
      { treatment := strOr parsed.treatment "Not specified"
        outcome := strOr parsed.outcome "Not specified"
        population := strOr parsed.population "General population"
        issues := parsed.issues.getD []
        suggestions := parsed.suggestions.getD []
        feasibility :=
          if ["HIGH", "MEDIUM", "LOW"].any (fun f => parsed.feasibility == some f) then
            parsed.feasibility.getD "MEDIUM"
          else "MEDIUM"
        refinedQuestion := strOr parsed.refinedQuestion originalQuestion }
    | none => formulationParseFailResult originalQuestion
  | none => parseStructuredText response originalQuestion

/-- Oracle for one formulation agent call: the completion-service reply
(`Except.error` models the call throwing) and the `JSON.parse` model. -/
structure FormOracle where
  response : Except String String
  jp : String → Option FormJson

/-- Outcome of one agent `execute` call: the returned result, the shared
context after the call (the agent mutates it in place), and whether the
completion service was invoked. -/
structure AgentRun (α : Type) where
  result : AgentResult α
  ctx : SharedContext
  serviceCalled : Bool

/-- `FormulationAgent.execute`: generate, parse, unconditionally write
`context.treatment`/`context.outcome`, then decide between an iteration
result (critical issues and LOW feasibility) and a success result. -/
def formulationExecute (researchQuestion : String) (context : SharedContext)
    (o : FormOracle) : AgentRun FormulationResult :=
  match o.response with
  | .error e =>
    { result := createErrorResult e
        (some "Check if the research question is clearly stated and try again")
      ctx := context, serviceCalled := true }
  | .ok response =>
    let result := parseFormulationResponse o.jp response researchQuestion
    let context := { context with treatment := some result.treatment,
                                  outcome := some result.outcome }
    let criticalIssues := result.issues.filter (fun i => strIncludes (toLowerStr i) "critical")
    if criticalIssues.length > 0 && result.feasibility == "LOW" then
      { result := createIterationResult result
          "Research question has critical issues that may prevent causal analysis"
          "Consider refining the question based on suggestions or choosing a different research question"
        ctx := context, serviceCalled := true }
    else
      { result := createSuccessResult result
          ["Proceed to Exploratory Data Analysis (EDA) stage",
           "Review extracted components and refine if needed"]
        ctx := context, serviceCalled := true }

/-! ## EDAAgent -/

/-- `EDACheck` (string-typed fields as they arrive from JSON). -/
structure EDACheck where
  name : String
  type : String
  status : String
  details : String
deriving DecidableEq, Repr

/-- `AssumptionViolation`; `severity` is the raw JSON string. -/
structure AssumptionViolation where
  assumption : String
  severity : String
  description : String
  suggestedAction : String
deriving DecidableEq, Repr

/-- `EDAResult`. -/
structure EDAResult where
  checks : List EDACheck
  violations : List AssumptionViolation
  pythonCode : String
  executionOutput : Option String := none
  executionSuccess : Option Bool := none
  summary : String
  recommendations : List String
deriving DecidableEq, Repr

/-- JSON object shape for an EDA reply. -/
structure EdaJson where
  checks : Option (List EDACheck) := none
  violations : Option (List AssumptionViolation) := none
  pythonCode : Option String := none
  summary : Option String := none
  recommendations : Option (List String) := none
deriving DecidableEq, Repr

/-- `EDAAgent.parseStructuredEDAText` fallback: extract the python code
block and report a warning check. -/
def parseStructuredEDAText (response : String) : EDAResult :=
  let pythonCode := (extractBetween "```python\n" "```" response).getD
    "# No code found in response"
  { checks := [{ name := "Basic EDA", type := "distribution", status := "warning",
                 details := "Fallback parsing used - review response manually" }]
    violations := []
    pythonCode := pythonCode
    summary := "EDA analysis completed with fallback parsing"
    recommendations := ["Review the agent response and generated code manually"] }

/-- The result `parseEDAResponse` builds when `JSON.parse` throws. -/
def edaParseFailResult : EDAResult :=
  { checks := []
    violations := [{ assumption := "Response Parsing", severity := "moderate",
                     description := "Failed to parse EDA agent response",
                     suggestedAction := "Try running the analysis again" }]
    pythonCode := "# Response parsing failed"
    summary := "Unable to complete EDA analysis"
    recommendations := ["Retry the EDA stage"] }

/-- `EDAAgent.parseEDAResponse`. -/
def parseEDAResponse (jp : String → Option EdaJson) (response : String) : EDAResult :=
  match extractJsonBlock response with
  | some block =>
    match jp block with
    | some parsed =>
      { checks := parsed.checks.getD []
        violations := parsed.violations.getD []
        pythonCode := strOr parsed.pythonCode "# No code generated"
        summary := strOr parsed.summary "EDA analysis completed"
        recommendations := parsed.recommendations.getD [] }
    | none => edaParseFailResult
  | none => parseStructuredEDAText response

/-- Outcome of one Jupyter execution: success flag, the error name when
`error` is set, and the chat-formatted output (both produced by the
external executor). -/
structure ExecOutcome where
  success : Bool
  errName : Option String := none
  formatted : String
deriving DecidableEq, Repr

/-- Oracle for one EDA agent call: completion reply, JSON parse model,
and the Jupyter execution outcome (`none` models the executor throwing,
which the agent catches and ignores). -/
structure EdaOracle where
  response : Except String String
  jp : String → Option EdaJson
  exec : Option ExecOutcome

/-- The code-execution block of `EDAAgent.execute`: run the generated
python when present, record output/success, and append a moderate
violation when execution failed with an error. -/
def edaApplyExecution (result : EDAResult) (exec : Option ExecOutcome) : EDAResult :=
  if strTruthy (some result.pythonCode) && result.pythonCode ≠ "# No code generated" then
    match exec with
    | none => result
    | some ex =>
      let result := { result with executionOutput := some ex.formatted,
                                  executionSuccess := some ex.success }
      if !ex.success then
        match ex.errName with
        | some ename =>
          { result with violations := result.violations ++
              [{ assumption := "Code Execution", severity := "moderate",
                 description := "Failed to execute EDA code: " ++ ename,
                 suggestedAction := "Check data availability and column names" }] }
        | none => result
      else result
  else result

/-- `EDAAgent.execute`: precondition check on treatment/outcome, generate,
parse, execute code, then gate on critical violations. -/
def edaExecute (context : SharedContext) (o : EdaOracle) : AgentRun EDAResult :=
  if !(strTruthy context.treatment) || !(strTruthy context.outcome) then
    { result := createErrorResult "Treatment and outcome must be defined before EDA"
        (some "Complete the Problem Formulation stage first")
      ctx := context, serviceCalled := false }
  else
    match o.response with
    | .error e =>
      { result := createErrorResult e
          (some "Ensure dataset information is available and try again")
        ctx := context, serviceCalled := true }
    | .ok response =>
      let result := edaApplyExecution (parseEDAResponse o.jp response) o.exec
      let criticalViolations := result.violations.filter (fun v => v.severity == "critical")
      if criticalViolations.length > 0 then
        { result := createIterationResult result
            ("Found " ++ toString criticalViolations.length ++
             " critical assumption violations")
            "Address data quality issues before proceeding to causal analysis"
          ctx := context, serviceCalled := true }
      else
        let nextSteps :=
          if result.executionSuccess == some true then
            ["✅ EDA checks executed successfully",
             "Review the analysis output above",
             "Address any warnings before proceeding",
             "Continue to DAG Construction stage"]
          else
            ["Generated EDA code (execution unavailable)",
             "Copy and run the Python code in your Jupyter notebook",
             "Review the output and address any warnings",
             "Proceed to DAG Construction stage"]
        { result := createSuccessResult result nextSteps
          ctx := context, serviceCalled := true }

/-! ## EstimationAgent -/

/-- The `codeComments` record of an estimation result. -/
structure CodeComments where
  setup : String
  estimation : String
  inference : String
deriving DecidableEq, Repr

/-- `EstimationResult`. -/
structure EstimationResult where
  method : String
  pythonCode : String
  executionOutput : Option String := none
  executionSuccess : Option Bool := none
  explanation : String
  interpretation : String
  diagnostics : List String
  limitations : List String
  codeComments : CodeComments
deriving DecidableEq, Repr

/-- JSON object shape for an estimation reply. -/
structure EstJson where
  method : Option String := none
  pythonCode : Option String := none
  explanation : Option String := none
  interpretation : Option String := none
  diagnostics : Option (List String) := none
  limitations : Option (List String) := none
  codeComments : Option CodeComments := none
deriving DecidableEq, Repr

/-- `EstimationAgent.extractCodeFallback`. -/
def extractCodeFallback (response : String) : EstimationResult :=
  let pythonCode := (extractBetween "```python\n" "```" response).getD
    "# No code found in response"
  { method := "regression"
    pythonCode := pythonCode
    explanation := "Fallback code extraction used"
    interpretation := "Review code and execute manually"
    diagnostics := ["Check model fit", "Verify assumptions"]
    limitations := ["Fallback parsing - verify code correctness"]
    codeComments := { setup := "See inline comments", estimation := "See inline comments",
                      inference := "See inline comments" } }

/-- `EstimationAgent.createFallbackResult` (used when `JSON.parse` throws). -/
def estimationFallbackResult : EstimationResult :=
  { method := "regression"
    pythonCode := "# Estimation code generation failed\nprint(\"Please generate code manually\")"
    explanation := "Failed to generate estimation code"
    interpretation := "Manual code generation required"
    diagnostics := []
    limitations := ["Code generation failed"]
    codeComments := { setup := "Not available", estimation := "Not available",
                      inference := "Not available" } }

/-- `EstimationAgent.parseEstimationResponse`. -/
def parseEstimationResponse (jp : String → Option EstJson) (response : String) :
    EstimationResult :=
  match extractJsonBlock response with
  | some block =>
    match jp block with
    | some parsed =>
      { method := strOr parsed.method "regression"
        pythonCode := strOr parsed.pythonCode "# No code generated"
        explanation := strOr parsed.explanation "Estimation code generated"
        interpretation := strOr parsed.interpretation "Run the code to see results"
        diagnostics := parsed.diagnostics.getD []
        limitations := parsed.limitations.getD []
        codeComments := parsed.codeComments.getD
          { setup := "Data preparation", estimation := "Effect estimation",
            inference := "Uncertainty quantification" } }
    | none => estimationFallbackResult
  | none => extractCodeFallback response

/-- Oracle for one estimation agent call. -/
structure EstOracle where
  response : Except String String
  jp : String → Option EstJson
  exec : Option ExecOutcome

/-- The stage-specific `data` payload of an estimation agent result: the
iteration path returns the plain empty object `\x7b\x7d`, which is truthy
in JS but carries no fields. -/
inductive EstData
  | emptyObj
  | result (r : EstimationResult)
deriving DecidableEq, Repr

/-- Field access `data.explanation` on an estimation payload. -/
def EstData.explanation? : EstData → Option String
  | .emptyObj => none
  | .result r => some r.explanation

/-- Field access `data.executionOutput`. -/
def EstData.executionOutput? : EstData → Option String
  | .emptyObj => none
  | .result r => r.executionOutput

/-- Field access `data.interpretation`. -/
def EstData.interpretation? : EstData → Option String
  | .emptyObj => none
  | .result r => some r.interpretation

/-- The code-execution block of `EstimationAgent.execute` (failure appends
to `limitations` rather than to violations). -/
def estApplyExecution (result : EstimationResult) (exec : Option ExecOutcome) :
    EstimationResult :=
  if strTruthy (some result.pythonCode) && result.pythonCode ≠ "# No code generated" then
    match exec with
    | none => result
    | some ex =>
      let result := { result with executionOutput := some ex.formatted,
                                  executionSuccess := some ex.success }
      if !ex.success then
        match ex.errName with
        | some ename =>
          { result with limitations := result.limitations ++
              ["Code execution failed: " ++ ename ++ ". Check data availability."] }
        | none => result
      else result
  else result

/-- `EstimationAgent.execute`: treatment/outcome gate, adjustment-set gate
(missing or empty yields an iteration result before any service call),
then generate, parse, execute and record the estimate in the context. -/
def estimationExecute (context : SharedContext) (o : EstOracle) :
    AgentRun EstData :=
  if !(strTruthy context.treatment) || !(strTruthy context.outcome) then
    { result := createErrorResult "Treatment and outcome must be defined for estimation"
        (some "Complete earlier workflow stages first")
      ctx := context, serviceCalled := false }
  else if (match context.adjustmentSet with
           | none => true
           | some l => l.length = 0) then
    { result := createIterationResult EstData.emptyObj "No adjustment set specified"
        "Complete the Identification stage to determine which variables to adjust for"
      ctx := context, serviceCalled := false }
  else
    match o.response with
    | .error e =>
      { result := createErrorResult e (some "Check the adjustment set and data availability")
        ctx := context, serviceCalled := true }
    | .ok response =>
      let result := estApplyExecution (parseEstimationResponse o.jp response) o.exec
      let context := { context with
        estimate := some { effect := 0, method := result.method } }
      let nextSteps :=
        if result.executionSuccess == some true then
          ["✅ Estimation code executed successfully",
           "Review the estimated causal effect above",
           "Check diagnostics to ensure validity",
           "Consider sensitivity analysis (future stage)"]
        else
          ["Generated estimation code (execution unavailable)",
           "Copy and run the Python code in your Jupyter notebook",
           "Review the estimated causal effect",
           "Check diagnostics to ensure validity"]
      { result := createSuccessResult (EstData.result result) nextSteps
        ctx := context, serviceCalled := true }

/-! ## ChatWorkflowOrchestrator: session, display-sink events, handlers -/

/-- One entry of the conversation history (timestamps are environment
effects and are not modelled). -/
structure HistEntry where
  role : String
  content : String
deriving DecidableEq, Repr

/-- `WorkflowSession` (the id and start time are environment effects and
are not modelled). -/
structure WorkflowSession where
  currentStage : WorkflowStage
  sharedContext : SharedContext
  conversationHistory : List HistEntry
deriving DecidableEq, Repr

/-- `startNewSession`. -/
def startSession : WorkflowSession :=
  { currentStage := WorkflowStage.formulation
    sharedContext := { confounders := some [] }
    conversationHistory := [] }

/-- Observable effects pushed to the display sink, plus the stage-agent
invocations (each `agent.execute(...)` call). -/
inductive ChatEvent
  | system (content : String)
  | assistant (content : String)
  | error (content : String)
  | agentInvoked (stage : WorkflowStage)
deriving DecidableEq, Repr

/-- Result of a router operation: the updated session and the emitted
events in order. -/
structure RouterOut where
  session : WorkflowSession
  events : List ChatEvent
deriving DecidableEq, Repr

/-- All the oracles one orchestrator turn may consume: one per stage
agent, plus the planner's next-step suggestions. -/
structure RouterOracles where
  form : FormOracle
  eda : EdaOracle
  est : EstOracle
  nextSteps : List String

/-- The canned greeting response of `handleGeneralQuestion`. -/
def greetingResponseText : String :=
  "👋 Hello! I\x27m your Causal Inference Assistant.\n\n" ++
  "I help you analyze cause-and-effect relationships in data using rigorous statistical methods.\n\n" ++
  "**What I can do:**\n" ++
  "- Formulate causal research questions\n" ++
  "- Check data quality and assumptions (EDA)\n" ++
  "- Estimate treatment effects\n" ++
  "- Validate causal assumptions\n\n" ++
  "**Get started:**\n" ++
  "- Try asking: \"Does education affect income?\"\n" ++
  "- Or: \"How do I load my data?\"\n" ++
  "- Or run the demo: Cmd+Shift+P → \"Demo Workflow\""

/-- The canned dataset-help response. -/
def helpDatasetText : String :=
  "**Loading Data - Two Options:**\n\n" ++
  "**Option 1: Demo Dataset** (Quickest)\n" ++
  "- Press `Cmd+Shift+P` (Mac) or `Ctrl+Shift+P` (Windows)\n" ++
  "- Type \"Causal Assistant: Demo Workflow in Chat\"\n" ++
  "- This creates a sample heart attack prevention study\n\n" ++
  "**Option 2: Your Own Data**\n" ++
  "First, tell me your research question (e.g., \"Does X affect Y?\"), then I\x27ll guide you on:\n" ++
  "- What data you need\n" ++
  "- How to prepare it\n" ++
  "- How to load it\n\n" ++
  "Which option would you prefer?"

/-- The canned formulation-help response. -/
def helpFormulationText : String :=
  "**Formulating Causal Questions:**\n\n" ++
  "A good causal question has:\n" ++
  "1. **Treatment** (what you want to change): e.g., \"education level\"\n" ++
  "2. **Outcome** (what you want to measure): e.g., \"income\"\n" ++
  "3. **Population** (who you\x27re studying): e.g., \"adults in US\"\n\n" ++
  "**Example:** \"Does education level affect income for adults in the US?\"\n\n" ++
  "Try stating your question, and I\x27ll help refine it!"

/-- The canned general-help response. -/
def helpGeneralText : String :=
  "**How to Use This Assistant:**\n\n" ++
  "**1. Formulate** your causal question\n" ++
  "   Example: \"Does aspirin reduce heart attacks?\"\n\n" ++
  "**2. Load or describe** your data\n" ++
  "   Run demo or describe your dataset\n\n" ++
  "**3. I\x27ll guide you** through:\n" ++
  "   - Data exploration and assumption checking\n" ++
  "   - Causal effect estimation\n" ++
  "   - Results interpretation\n\n" ++
  "What would you like to start with?"

/-- The default general-question response used when the planner gave no
reasoning. -/
def generalDefaultText : String :=
  "I can help you with causal inference workflows. Here\x27s what I can do:\n\n" ++
  "- **Formulate** your research question (e.g., \"Does education affect income?\")\n" ++
  "- **Analyze** your data to check causal assumptions\n" ++
  "- **Estimate** causal effects using appropriate methods\n\n" ++
  "What would you like to explore?"

/-- The affirmative response when no dataset is loaded. -/
def affirmativeNoDatasetText : String :=
  "Great! Let me help you get started.\n\n" ++
  "**Quickest Way - Demo Dataset:**\n" ++
  "1. Press `Cmd+Shift+P` (Mac) or `Ctrl+Shift+P` (Windows)\n" ++
  "2. Type \"Causal Assistant: Demo Workflow in Chat\"\n" ++
  "3. Press Enter\n\n" ++
  "This will create a sample dataset analyzing whether aspirin reduces heart attacks.\n\n" ++
  "**Or:** Tell me about your research question and I\x27ll guide you through your own data.\n\n" ++
  "What would you prefer?"

/-- The canned dataset-operation response. -/
def datasetOperationText : String :=
  "Dataset operations are not fully implemented yet. You can:\n\n" ++
  "1. Run the **\"Demo Workflow in Chat\"** command to create a sample dataset\n" ++
  "2. Or I can help you formulate your research question first, then we\x27ll work on data loading\n\n" ++
  "What would you like to do?"

/-- The default workflow-control response. -/
def workflowControlDefaultText : String :=
  "I can help you navigate the workflow. Try:\n- \"restart\" to start over\n- \"continue\" to proceed\n- Ask a specific question"

/-- The unknown-intent response. -/
def unknownIntentText : String :=
  "I\x27m not sure what you\x27re asking. Could you rephrase? Here are some things I can help with:\n\n" ++
  "- Formulate causal research questions\n" ++
  "- Explore data for causal assumptions\n" ++
  "- Estimate causal effects\n\n" ++
  "Or try commands like \"start\", \"continue\", \"help\"."

/-- The assistant message listing missing prerequisites. -/
def prereqMessage (missing : List String) : String :=
  "Before we proceed, we need:\n" ++
  String.intercalate "\n" (missing.map (fun p => "- " ++ p)) ++
  "\n\nWould you like help with these?"

/-- The execution-plan summary emitted for multi-step plans. -/
def planSummaryMsg (plan : ExecutionPlan) : String :=
  "📋 **Execution Plan** (" ++ plan.estimatedDuration ++ "):\n" ++
  String.intercalate "\n"
    (plan.steps.map (fun st => toString st.stepNumber ++ ". " ++ st.action ++
      " (" ++ st.agent ++ ")"))

/-- The suggested-next-steps message. -/
def nextStepsMsg (steps : List String) : String :=
  "✨ **Suggested Next Steps:**\n" ++
  String.intercalate "\n" (steps.enum.map (fun p => toString (p.1 + 1) ++ ". " ++ p.2))

/-- The causal-spec merge that `executePlan` performs before dispatch. -/
def mergeCausalSpec (causalSpec : CausalSpecification) (ctx : SharedContext) :
    SharedContext :=
  let ctx := if strTruthy causalSpec.treatment then
      { ctx with treatment := causalSpec.treatment } else ctx
  let ctx := if strTruthy causalSpec.outcome then
      { ctx with outcome := causalSpec.outcome } else ctx
  if causalSpec.confounders.isSome then
    { ctx with confounders := causalSpec.confounders } else ctx

/-- `handleFormulation`: run the formulation agent, apply its data to the
shared context, emit messages, then advance the stage to EDA on success. -/
def handleFormulation (message : String) (s : WorkflowSession) (o : RouterOracles) :
    RouterOut :=
  let evs := [ChatEvent.system "🎯 Analyzing your research question...",
              ChatEvent.agentInvoked WorkflowStage.formulation]
  let run := formulationExecute message s.sharedContext o.form
  let s := { s with sharedContext := run.ctx }
  match run.result.success, run.result.data with
  | true, some data =>
    let ctx := s.sharedContext
    let ctx := if strTruthy (some data.treatment) then
        { ctx with treatment := some data.treatment } else ctx
    let ctx := if strTruthy (some data.outcome) then
        { ctx with outcome := some data.outcome } else ctx
    -- `data.confounders` is undefined on a FormulationResult, so the
    -- `if (data.confounders)` update never fires; likewise `data.summary`
    -- is undefined, so the assistant message always shows the default.
    let evs := evs ++ [ChatEvent.assistant "Formulation completed"]
    let evs := evs ++
      (if run.result.suggestedNextSteps.length > 0 then
        [ChatEvent.system ("✅ Research question formulated!\n\n**Next Steps:**\n" ++
          String.intercalate "\n" (run.result.suggestedNextSteps.map (fun x => "- " ++ x)))]
      else [])
    { session := { s with sharedContext := ctx, currentStage := WorkflowStage.eda }
      events := evs }
  | _, _ =>
    { session := s
      events := evs ++ [ChatEvent.error
        "Failed to formulate research question. Please try rephrasing your question."] }

/-- `handleEDA`: dataset gate, run the EDA agent, emit messages, and
advance to Estimation exactly when the violations list is empty. -/
def handleEDA (s : WorkflowSession) (o : RouterOracles) : RouterOut :=
  if s.sharedContext.dataset.isNone then
    { session := s
      events := [ChatEvent.assistant
        "I need a dataset to perform exploratory data analysis. Please load a dataset first or create one."] }
  else
    let evs := [ChatEvent.system "🔍 Running exploratory data analysis...",
                ChatEvent.agentInvoked WorkflowStage.eda]
    let run := edaExecute s.sharedContext o.eda
    match run.result.success, run.result.data with
    | true, some data =>
      let evs := evs ++ [ChatEvent.assistant (strOr (some data.summary) "EDA completed")]
      let evs := evs ++
        (if strTruthy data.executionOutput then
          [ChatEvent.assistant (data.executionOutput.getD "")] else [])
      let evs := evs ++
        (if run.result.suggestedNextSteps.length > 0 then
          [ChatEvent.system ("✅ EDA completed!\n\n**Next Steps:**\n" ++
            String.intercalate "\n" (run.result.suggestedNextSteps.map (fun x => "- " ++ x)))]
        else [])
      let s := if data.violations.length = 0 then
          { s with currentStage := WorkflowStage.estimation } else s
      { session := s, events := evs }
    | _, _ =>
      { session := s
        events := evs ++ [ChatEvent.error
          "Failed to complete EDA. Please check your dataset and try again."] }

/-- `handleEstimation`: treatment/outcome gate, run the estimation agent,
emit messages; this handler never changes the stage. -/
def handleEstimation (s : WorkflowSession) (o : RouterOracles) : RouterOut :=
  if !(strTruthy s.sharedContext.treatment) || !(strTruthy s.sharedContext.outcome) then
    { session := s
      events := [ChatEvent.assistant
        "I need treatment and outcome variables defined before estimation. Let\x27s formulate the research question first."] }
  else
    let evs := [ChatEvent.system "📊 Estimating causal effect...",
                ChatEvent.agentInvoked WorkflowStage.estimation]
    let run := estimationExecute s.sharedContext o.est
    let s := { s with sharedContext := run.ctx }
    match run.result.success, run.result.data with
    | true, some data =>
      let evs := evs ++ [ChatEvent.assistant ("**Causal Effect Estimation**\n\n" ++
        strOr data.explanation? "Estimation completed")]
      let evs := evs ++
        (if strTruthy data.executionOutput? then
          [ChatEvent.assistant (data.executionOutput?.getD "")] else [])
      let evs := evs ++
        (if strTruthy data.interpretation? then
          [ChatEvent.assistant ("**Interpretation**: " ++ (data.interpretation?.getD ""))]
        else [])
      let evs := evs ++
        (if run.result.suggestedNextSteps.length > 0 then
          [ChatEvent.system ("✅ Estimation completed!\n\n**Next Steps:**\n" ++
            String.intercalate "\n" (run.result.suggestedNextSteps.map (fun x => "- " ++ x)))]
        else [])
      { session := s, events := evs }
    | _, _ =>
      { session := s
        events := evs ++ [ChatEvent.error
          "Failed to estimate causal effect. Please check your data and try again."] }

/-- `handleDatasetOperation`. -/
def handleDatasetOperation (s : WorkflowSession) : RouterOut :=
  { session := s
    events := [ChatEvent.system "📁 Processing dataset operation...",
               ChatEvent.assistant datasetOperationText] }

/-- `extractHelpTopic`. -/
def extractHelpTopic (message : String) : String :=
  let lowerMsg := toLowerStr message
  if strIncludes lowerMsg "data" || strIncludes lowerMsg "dataset" ||
      strIncludes lowerMsg "load" then "dataset"
  else if strIncludes lowerMsg "question" || strIncludes lowerMsg "formulate" ||
      strIncludes lowerMsg "start" then "formulation"
  else if strIncludes lowerMsg "estimate" || strIncludes lowerMsg "effect" then "estimation"
  else if strIncludes lowerMsg "assumption" || strIncludes lowerMsg "check" ||
      strIncludes lowerMsg "explore" then "eda"
  else "general"

/-- The help response chosen from the extracted help topic. -/
def helpResponseText (message : String) : String :=
  let helpTopic := extractHelpTopic message
  if helpTopic == "dataset" then helpDatasetText
  else if helpTopic == "formulation" then helpFormulationText
  else helpGeneralText

/-- `handleGeneralQuestion`: canned responses keyed on the intent subtype. -/
def handleGeneralQuestion (message : String) (plannerResult : PlannerResult)
    (s : WorkflowSession) : RouterOut :=
  if plannerResult.intent.subtype == some "greeting" then
    { session := s, events := [ChatEvent.assistant greetingResponseText] }
  else if plannerResult.intent.subtype == some "help" then
    { session := s, events := [ChatEvent.assistant (helpResponseText message)] }
  else
    { session := s
      events := [ChatEvent.assistant (strOr (some plannerResult.reasoning) generalDefaultText)] }

/-- `handleUnknownIntent`. -/
def handleUnknownIntent (s : WorkflowSession) : RouterOut :=
  { session := s, events := [ChatEvent.assistant unknownIntentText] }

/-- `handleWorkflowControl` (restart / continue / affirmative / default);
the affirmative path with a dataset at the Formulation stage dispatches
EDA directly. -/
def handleWorkflowControl (action : String) (s : WorkflowSession) (o : RouterOracles) :
    RouterOut :=
  if action == "affirmative" then
    if s.sharedContext.dataset.isNone then
      { session := s, events := [ChatEvent.assistant affirmativeNoDatasetText] }
    else if s.currentStage = WorkflowStage.formulation then
      let inner := handleEDA s o
      { session := inner.session
        events := ChatEvent.system
          "✅ Perfect! Let\x27s analyze your data. I\x27ll check the causal assumptions first."
          :: inner.events }
    else
      { session := s
        events := [ChatEvent.system ("📍 Continuing from " ++ s.currentStage.str ++
          ". Processing next steps...")] }
  else if action == "restart" then
    { session := startSession
      events := [ChatEvent.system "🔄 Workflow restarted. Let\x27s begin with your research question."] }
  else if action == "continue" then
    { session := s
      events := [ChatEvent.system ("📍 Currently at: " ++ s.currentStage.str ++
        ". What would you like to do next?")] }
  else
    { session := s, events := [ChatEvent.assistant workflowControlDefaultText] }

/-- The intent-dispatch switch of `executePlan`. -/
def dispatchIntent (plannerResult : PlannerResult) (originalMessage : String)
    (s : WorkflowSession) (o : RouterOracles) : RouterOut :=
  match plannerResult.intent.type with
  | .formulation => handleFormulation originalMessage s o
  | .eda => handleEDA s o
  | .estimation => handleEstimation s o
  | .workflow_control =>
      handleWorkflowControl (strOr plannerResult.intent.subtype "continue") s o
  | .dataset_operation => handleDatasetOperation s
  | .general_question => handleGeneralQuestion originalMessage plannerResult s
  | .dag => handleUnknownIntent s
  | .identification => handleUnknownIntent s

/-- `executePlan`: prerequisite gate (short-circuits before any context
merge or dispatch), plan summary, causal-spec merge, intent dispatch, and
the trailing next-step suggestion. -/
def executePlan (plannerResult : PlannerResult) (originalMessage : String)
    (s : WorkflowSession) (o : RouterOracles) : RouterOut :=
  let missingPrereqs := checkPrerequisites plannerResult s.sharedContext
  if missingPrereqs.length > 0 then
    { session := s, events := [ChatEvent.assistant (prereqMessage missingPrereqs)] }
  else
    let planEvs := if plannerResult.executionPlan.steps.length > 1 then
        [ChatEvent.system (planSummaryMsg plannerResult.executionPlan)] else []
    let s := { s with
      sharedContext := mergeCausalSpec plannerResult.causalSpec s.sharedContext }
    let dispatched := dispatchIntent plannerResult originalMessage s o
    let nextEvs := if o.nextSteps.length > 0 then
        [ChatEvent.system (nextStepsMsg o.nextSteps)] else []
    { session := dispatched.session, events := planEvs ++ dispatched.events ++ nextEvs }

/-! ## processUserMessage and the full-workflow path -/

/-- The dataset-confirmation regexes of `processUserMessage` (all applied
case-insensitively). -/
def datasetConfirmPatterns : List (List String) :=
  [["dataset", "loaded", "df"],
   ["df", "loaded"],
   ["already", "loaded"],
   ["data", "in", "df"],
   ["using", "df"]]

/-- Does the message match one of the dataset-confirmation patterns? -/
def datasetConfirmMatches (message : String) : Bool :=
  datasetConfirmPatterns.any (fun pats => regexSeq pats (toLowerStr message))

/-- The low-confidence notice (`Math.round` on a rational is `round`). -/
def lowConfidenceMsg (plannerResult : PlannerResult) : String :=
  "⚠️ I\x27m " ++ toString (round (plannerResult.confidence * 100) : ℤ) ++
  "% confident about this. " ++ plannerResult.reasoning

/-- The session state right before the planner call: dataset
confirmation applied, then the user message appended to the history. -/
def preparedSession (message : String) (s0 : WorkflowSession) : WorkflowSession :=
  let confirmed := datasetConfirmMatches message && s0.sharedContext.dataset.isNone
  let s1 :=
    if confirmed then
      { s0 with sharedContext := { s0.sharedContext with
          dataset := some { name := "df", rows := -1, columns := [] } } }
    else s0
  { s1 with conversationHistory :=
      s1.conversationHistory ++ [{ role := "user", content := message }] }

/-- `processUserMessage` for an existing session: dataset confirmation,
history append, planner outcome (`none` models `analyze` throwing, which
aborts the turn), low-confidence notice, then `executePlan`. -/
def processUserMessage (message : String) (planner : Option PlannerResult)
    (s0 : WorkflowSession) (o : RouterOracles) : RouterOut :=
  let confirmed := datasetConfirmMatches message && s0.sharedContext.dataset.isNone
  let evs :=
    if confirmed then
      [ChatEvent.system "✅ Noted: Dataset is loaded as `df`. Proceeding with analysis..."]
    else []
  let s := preparedSession message s0
  let evs := evs ++ [ChatEvent.system "🤔 Analyzing your request..."]
  match planner with
  | none =>
    { session := s
      events := evs ++ [ChatEvent.error "Failed to analyze your request. Please try rephrasing."] }
  | some plannerResult =>
    let evs := evs ++
      (if plannerResult.confidence < 0.7 then [ChatEvent.system (lowConfidenceMsg plannerResult)]
       else [])
    let out := executePlan plannerResult message s o
    { session := out.session, events := evs ++ out.events }

/-- The spread `\x7b confounders: [], ...(inputData.sharedContext || \x7b\x7d) \x7d`
of the Mastra formulation step.  No writer of a `SharedContext` ever
stores a literal `undefined` under the `confounders` key, so an absent
input value (`none`) is replaced by the empty-array default. -/
def spreadWithConfounders (input : Option SharedContext) : SharedContext :=
  match input with
  | none => { confounders := some [] }
  | some c =>
    { c with confounders := match c.confounders with
                            | none => some []
                            | some l => some l }

/-- The Mastra formulation step: run the agent on the spread context and,
on success-with-data, copy the extracted fields back (`formData.confounders`
is undefined on a `FormulationResult`, so `|| []` always yields `[]`). -/
def formulationStepRun (userMessage : String) (inputCtx : Option SharedContext)
    (o : FormOracle) : Bool × SharedContext :=
  let ctx := spreadWithConfounders inputCtx
  let run := formulationExecute userMessage ctx o
  let ctx := run.ctx
  let ctx :=
    match run.result.success, run.result.data with
    | true, some formData =>
      { ctx with treatment := some formData.treatment,
                 outcome := some formData.outcome,
                 confounders := some [] }
    | _, _ => ctx
  (run.result.success, ctx)

/-- The Mastra EDA step: dataset gate, then the EDA agent (which does not
mutate the context). -/
def edaStepRun (ctx : SharedContext) (o : EdaOracle) : Bool × SharedContext :=
  if ctx.dataset.isNone then (false, ctx)
  else
    let run := edaExecute ctx o
    match run.result.success, run.result.data with
    | true, some _ => (run.result.success, run.ctx)
    | _, _ => (false, run.ctx)

/-- The Mastra estimation step: set the adjustment set from the
confounders, then run the estimation agent. -/
def estimationStepRun (ctx : SharedContext) (o : EstOracle) : Bool × SharedContext :=
  let ctx := { ctx with adjustmentSet := some (ctx.confounders.getD []) }
  let run := estimationExecute ctx o
  (run.result.success, run.ctx)

/-- The three-step workflow chain Formulation → EDA → Estimation; the
final shared context is the estimation step's output context. -/
def causalWorkflowChain (userMessage : String) (inputCtx : Option SharedContext)
    (o : RouterOracles) : SharedContext :=
  let r1 := formulationStepRun userMessage inputCtx o.form
  let r2 := edaStepRun r1.2 o.eda
  let r3 := estimationStepRun r2.2 o.est
  r3.2

/-- `executeFullWorkflow`: run the chain on the session's context and, on
a `success` status, replace the session context wholesale with the
estimation step's output and jump the stage to Estimation. -/
def executeFullWorkflow (userMessage status : String) (s : WorkflowSession)
    (o : RouterOracles) : RouterOut :=
  let evs := [ChatEvent.system "🚀 Starting complete causal inference workflow..."]
  let finalCtx := causalWorkflowChain userMessage (some s.sharedContext) o
  if status == "success" then
    { session := { s with sharedContext := finalCtx,
                          currentStage := WorkflowStage.estimation }
      events := evs ++ [ChatEvent.system "✅ Full workflow completed successfully!"] }
  else
    { session := s
      events := evs ++ [ChatEvent.error ("Workflow failed with status: " ++ status)] }

/-! ## Session lifetime: every orchestrator operation on the single
mutable session -/

/-- One orchestrator entry point acting on the current session.  The
`threw` flag of `fullWorkflow` models `executeCausalWorkflow` rejecting,
which the orchestrator catches, leaving the session untouched. -/
inductive SessionOp
  | processMessage (message : String) (planner : Option PlannerResult) (o : RouterOracles)
  | fullWorkflow (message status : String) (threw : Bool) (o : RouterOracles)
  | restartSession

/-- Apply one operation to the session. -/
def applyOp (s : WorkflowSession) : SessionOp → WorkflowSession
  | .processMessage m p o => (processUserMessage m p s o).session
  | .fullWorkflow m status threw o =>
      if threw then s else (executeFullWorkflow m status s o).session
  | .restartSession => startSession

/-- The session after a sequence of operations, starting from
`startNewSession` (a session is created on the first message). -/
def runSession (ops : List SessionOp) : WorkflowSession :=
  ops.foldl applyOp startSession

/-! ## Concrete fixtures used in scenario evaluations -/

/-- Oracles for a turn on which every external service is unreachable. -/
def oStub : RouterOracles :=
  { form := { response := Except.error "service unreachable", jp := fun _ => none }
    eda := { response := Except.error "service unreachable", jp := fun _ => none
             exec := none }
    est := { response := Except.error "service unreachable", jp := fun _ => none
             exec := none }
    nextSteps := [] }

/-- A planner result whose intent requires a dataset (C1 witness input). -/
def prDataset : PlannerResult :=
  { intent := { type := IntentType.eda, userGoal := "Perform exploratory data analysis"
                requiresDataset := true, requiresPriorStages := [] }
    causalSpec := {}
    executionPlan := { steps := [], estimatedDuration := "1-2 minutes"
                       prerequisites := [], expectedOutputs := [] }
    confidence := 0.6
    reasoning := fallbackReasoning }

/-- A loaded demo dataset. -/
def dfDataset : DatasetInfo :=
  { name := "df", rows := 100, columns := ["aspirin", "heart attacks"] }

/-- A context in which formulation is done and a dataset is loaded. -/
def ctxEda : SharedContext :=
  { treatment := some "aspirin", outcome := some "heart attacks"
    confounders := some [], dataset := some dfDataset }

/-- A session sitting at the EDA stage over `ctxEda`. -/
def sessEda : WorkflowSession :=
  { currentStage := WorkflowStage.eda, sharedContext := ctxEda
    conversationHistory := [] }

/-- A session sitting at the Estimation stage. -/
def sessEst : WorkflowSession :=
  { currentStage := WorkflowStage.estimation
    sharedContext := { ctxEda with adjustmentSet := some ["age"] }
    conversationHistory := [] }

/-- A single moderate-severity assumption violation. -/
def vModerate : AssumptionViolation :=
  { assumption := "Positivity", severity := "moderate"
    description := "Sparse overlap in one stratum"
    suggestedAction := "Consider trimming" }

/-- Oracles making the EDA agent report exactly one moderate violation. -/
def oEdaModerate : RouterOracles :=
  { oStub with eda :=
      { response := Except.ok "\x7bok\x7d"
        jp := fun _ => some { violations := some [vModerate]
                              pythonCode := some "# No code generated" }
        exec := none } }

/-- Oracles making the EDA agent report no violations at all. -/
def oEdaClean : RouterOracles :=
  { oStub with eda :=
      { response := Except.ok "\x7bok\x7d"
        jp := fun _ => some { pythonCode := some "# No code generated" }
        exec := none } }

/-- The EDA result produced under `oEdaClean`. -/
def edaCleanResult : EDAResult :=
  { checks := [], violations := [], pythonCode := "# No code generated"
    summary := "EDA analysis completed", recommendations := [] }

/-- The planner result the fallback classifier produces for a causal
question (used to dispatch formulation from the Estimation stage). -/
def prFormC3 : PlannerResult :=
  fallbackAnalysis "Does aspirin reduce heart attacks?" {}

/-- Oracles making the formulation agent succeed with extracted variables. -/
def oFormOk : RouterOracles :=
  { oStub with form :=
      { response := Except.ok "\x7bok\x7d"
        jp := fun _ => some { treatment := some "aspirin"
                              outcome := some "heart attacks" } } }

/-- Oracles making the formulation agent return an iteration result
(critical issue, LOW feasibility). -/
def oFormIter : RouterOracles :=
  { oStub with form :=
      { response := Except.ok "\x7bok\x7d"
        jp := fun _ => some { treatment := some "x", outcome := some "y"
                              issues := some ["critical: reverse causation risk"]
                              feasibility := some "LOW" } } }

/-- The fallback planner result for the Scenario B message. -/
def c7Planner : PlannerResult := fallbackAnalysis "estimate the effect" {}

/-- A context with formulation done but no adjustment set. -/
def ctxNoAdj : SharedContext :=
  { treatment := some "aspirin", outcome := some "heart attacks"
    confounders := some [] }

/-- A critical-severity assumption violation. -/
def vCritical : AssumptionViolation :=
  { assumption := "Positivity", severity := "critical"
    description := "No treated units in a stratum"
    suggestedAction := "Collect more data" }

/-- Oracles making the EDA agent report one critical violation. -/
def oEdaCritical : RouterOracles :=
  { oStub with eda :=
      { response := Except.ok "\x7bok\x7d"
        jp := fun _ => some { violations := some [vCritical]
                              pythonCode := some "# No code generated" }
        exec := none } }

/-! ## Helper lemmas -/

/-- Membership survives a fold whose step only appends. -/
theorem mem_foldl_of_append {α β : Type} (f : List α → β → List α)
    (hf : ∀ acc b, ∃ tail, f acc b = acc ++ tail) :
    ∀ (l : List β) (acc : List α) (x : α), x ∈ acc → x ∈ l.foldl f acc := by
  intro l
  induction l with
  | nil => intro acc x hx; simpa using hx
  | cons b t ih =>
    intro acc x hx
    simp only [List.foldl_cons]
    apply ih
    obtain ⟨tail, htail⟩ := hf acc b
    rw [htail]
    exact List.mem_append_left _ hx

/-- Non-membership survives a fold whose step never introduces `x`. -/
theorem not_mem_foldl {α β : Type} (f : List α → β → List α) (x : α)
    (hf : ∀ acc b, x ∉ acc → x ∉ f acc b) :
    ∀ (l : List β) (acc : List α), x ∉ acc → x ∉ l.foldl f acc := by
  intro l
  induction l with
  | nil => intro acc hx; simpa using hx
  | cons b t ih =>
    intro acc hx
    simp only [List.foldl_cons]
    exact ih (f acc b) (hf acc b hx)

/-- Each prior-stage step only appends. -/
theorem prereqStageStep_append (context : SharedContext) (acc : List String)
    (st : WorkflowStage) : ∃ tail, prereqStageStep context acc st = acc ++ tail := by
  unfold prereqStageStep
  split
  · split
    · exact ⟨[formulationMissingStr, edaMissingStr], by simp⟩
    · exact ⟨_, rfl⟩
  · split
    · exact ⟨_, rfl⟩
    · exact ⟨[], by simp⟩

/-- Each plan-prerequisite step only appends. -/
theorem prereqPlanStep_append (context : SharedContext) (acc : List String)
    (p : String) : ∃ tail, prereqPlanStep context acc p = acc ++ tail := by
  unfold prereqPlanStep
  split
  · split
    · exact ⟨_, rfl⟩
    · exact ⟨[], by simp⟩
  · exact ⟨[], by simp⟩

/-- The prerequisite short-circuit of `executePlan`: a non-empty missing
list ends the turn with the single prerequisite message. -/
theorem executePlan_shortcircuit (pr : PlannerResult) (m : String)
    (s : WorkflowSession) (o : RouterOracles)
    (h : 0 < (checkPrerequisites pr s.sharedContext).length) :
    executePlan pr m s o =
      { session := s
        events := [ChatEvent.assistant
          (prereqMessage (checkPrerequisites pr s.sharedContext))] } := by
  unfold executePlan
  simp [h]

/-! ## C1 -/

/-- C1: whenever the prerequisite check over the planner result and the
current shared context is non-empty, `executePlan` emits the missing
items to the display sink, leaves the session (hence the shared context
and that turn's causalSpec merge) untouched, and invokes no stage agent. -/
theorem c1_prereq_blocks_dispatch (pr : PlannerResult) (m : String)
    (s : WorkflowSession) (o : RouterOracles)
    (h : checkPrerequisites pr s.sharedContext ≠ []) :
    (executePlan pr m s o).session = s ∧
    (executePlan pr m s o).events =
      [ChatEvent.assistant (prereqMessage (checkPrerequisites pr s.sharedContext))] ∧
    ∀ st, ChatEvent.agentInvoked st ∉ (executePlan pr m s o).events := by
  have hl : 0 < (checkPrerequisites pr s.sharedContext).length :=
    List.length_pos.mpr h
  rw [executePlan_shortcircuit pr m s o hl]
  refine ⟨rfl, rfl, ?_⟩
  intro st hmem
  simp at hmem

/-- C1 witness: the fallback EDA intent with an empty context has a
missing dataset prerequisite, and the turn is short-circuited. -/
theorem c1_witness :
    checkPrerequisites prDataset startSession.sharedContext ≠ [] ∧
    (executePlan prDataset "explore the data" startSession oStub).session = startSession ∧
    (executePlan prDataset "explore the data" startSession oStub).events =
      [ChatEvent.assistant (prereqMessage [datasetMissingStr])] := by
  have h : checkPrerequisites prDataset startSession.sharedContext ≠ [] := by decide
  have h2 := c1_prereq_blocks_dispatch prDataset "explore the data" startSession oStub h
  refine ⟨h, h2.1, ?_⟩
  rw [h2.2.1]
  decide

/-! ## Characterizations of the EDA and formulation paths -/

/-- An EDA agent run either fails with no data, or succeeds with data
whose critical-violation content determines `requiresIteration`. -/
theorem edaExecute_cases (ctx : SharedContext) (o : EdaOracle) :
    ((edaExecute ctx o).result.data = none ∧
     (edaExecute ctx o).result.success = false ∧
     (edaExecute ctx o).result.requiresIteration = false) ∨
    (∃ d, (edaExecute ctx o).result.data = some d ∧
      (edaExecute ctx o).result.success = true ∧
      (edaExecute ctx o).result.requiresIteration =
        !(d.violations.filter (fun v => v.severity == "critical")).isEmpty) := by
  unfold edaExecute
  split
  · left; exact ⟨rfl, rfl, rfl⟩
  · split
    · left; exact ⟨rfl, rfl, rfl⟩
    · rename_i response heq
      dsimp only
      split
      · rename_i hcrit
        right
        refine ⟨_, rfl, rfl, ?_⟩
        have h1 : (edaApplyExecution (parseEDAResponse o.jp response) o.exec).violations.filter
            (fun v => v.severity == "critical") ≠ [] := by
          intro hnil
          rw [hnil] at hcrit
          simp at hcrit
        simp [createIterationResult, List.isEmpty_iff, h1]
      · rename_i hcrit
        right
        refine ⟨_, rfl, rfl, ?_⟩
        have h1 : (edaApplyExecution (parseEDAResponse o.jp response) o.exec).violations.filter
            (fun v => v.severity == "critical") = [] := by
          rw [← List.length_eq_zero]
          omega
        simp [createSuccessResult, List.isEmpty_iff, h1]

/-- The stage after `handleEDA`: Estimation exactly when the dataset is
present, the agent succeeded with data, and the violations list is empty;
otherwise unchanged. -/
theorem handleEDA_stage_eq (s : WorkflowSession) (o : RouterOracles) :
    (handleEDA s o).session.currentStage =
      (if s.sharedContext.dataset.isNone then s.currentStage
       else if ((edaExecute s.sharedContext o.eda).result.success &&
                (((edaExecute s.sharedContext o.eda).result.data.map
                    (fun d => d.violations.isEmpty)).getD false)) = true then
         WorkflowStage.estimation
       else s.currentStage) := by
  unfold handleEDA
  split
  · rfl
  · rename_i hds
    dsimp only
    split
    · rename_i data hsucc hdata
      rw [hsucc, hdata]
      by_cases hv : data.violations.isEmpty = true
      · have hlen : data.violations.length = 0 := by
          rw [List.isEmpty_iff] at hv
          simp [hv]
        simp [hv, hlen]
      · have hlen : ¬ data.violations.length = 0 := by
          rw [List.isEmpty_iff] at hv
          intro hlen0
          exact hv (List.length_eq_zero.mp hlen0)
        simp [hv, hlen]
    · rename_i hno
      have hcond : ((edaExecute s.sharedContext o.eda).result.success &&
          (((edaExecute s.sharedContext o.eda).result.data.map
              (fun d => d.violations.isEmpty)).getD false)) = false := by
        rcases edaExecute_cases s.sharedContext o.eda with ⟨hd, hs, -⟩ | ⟨d, hd, hs, -⟩
        · simp [hd, hs]
        · exact (hno d hs hd).elim
      simp [hcond]

/-! ## C2 -/

/-- C2 counterexample: a successful EDA dispatch whose result contains a
single moderate-severity violation — hence no critical-severity
violations — does NOT auto-advance `currentStage` to Estimation, so the
claimed "exactly when no critical violations" biconditional fails. -/
theorem c2_counterexample :
    (edaExecute sessEda.sharedContext oEdaModerate.eda).result.success = true ∧
    ((edaExecute sessEda.sharedContext oEdaModerate.eda).result.data.map
        (fun d => d.violations.filter (fun v => v.severity == "critical"))) = some [] ∧
    ((edaExecute sessEda.sharedContext oEdaModerate.eda).result.data.map
        (fun d => d.violations)) = some [vModerate] ∧
    (handleEDA sessEda oEdaModerate).session.currentStage = WorkflowStage.eda ∧
    WorkflowStage.eda ≠ WorkflowStage.estimation := by
  decide

/-- C2 amended: after a successful EDA dispatch with data, the router
auto-advances to Estimation exactly when the violations list is empty
(not merely critical-free); in particular a result with a
critical-severity violation has `requiresIteration = true` and leaves the
stage unchanged. -/
theorem c2_eda_advance (s : WorkflowSession) (o : RouterOracles) (d : EDAResult)
    (hds : s.sharedContext.dataset.isSome = true)
    (hs : (edaExecute s.sharedContext o.eda).result.success = true)
    (hd : (edaExecute s.sharedContext o.eda).result.data = some d) :
    ((handleEDA s o).session.currentStage = WorkflowStage.estimation ↔
      (d.violations = [] ∨ s.currentStage = WorkflowStage.estimation)) ∧
    (d.violations.filter (fun v => v.severity == "critical") ≠ [] →
      (edaExecute s.sharedContext o.eda).result.requiresIteration = true ∧
      (handleEDA s o).session.currentStage = s.currentStage) := by
  have hstage := handleEDA_stage_eq s o
  rw [if_neg (by simp [Option.isNone_iff_eq_none] at hds ⊢; simp [Option.isSome_iff_exists] at hds; obtain ⟨a, ha⟩ := hds; simp [ha])] at hstage
  rw [hs, hd] at hstage
  constructor
  · by_cases hv : d.violations = []
    · rw [hstage]
      simp [hv]
    · have : d.violations.isEmpty = false := by
        simp [List.isEmpty_iff, hv]
      rw [hstage]
      simp [this, hv]
  · intro hcrit
    have hvne : d.violations ≠ [] := by
      intro h0
      rw [h0] at hcrit
      simp at hcrit
    have : d.violations.isEmpty = false := by simp [List.isEmpty_iff, hvne]
    constructor
    · rcases edaExecute_cases s.sharedContext o.eda with ⟨hd2, -, -⟩ | ⟨d2, hd2, -, hit⟩
      · rw [hd2] at hd; cases hd
      · rw [hd2] at hd
        injection hd with hd
        subst hd
        rw [hit]
        simp [List.isEmpty_iff, hcrit]
    · rw [hstage]
      simp [this]

/-- C2 witness: with a dataset present and a clean (violation-free) EDA
result, the router does advance to Estimation. -/
theorem c2_witness :
    sessEda.sharedContext.dataset.isSome = true ∧
    (edaExecute sessEda.sharedContext oEdaClean.eda).result.success = true ∧
    (edaExecute sessEda.sharedContext oEdaClean.eda).result.data = some edaCleanResult ∧
    (handleEDA sessEda oEdaClean).session.currentStage = WorkflowStage.estimation := by
  have h := c2_eda_advance sessEda oEdaClean edaCleanResult (by decide) (by decide) (by decide)
  exact ⟨by decide, by decide, by decide, h.1.mpr (Or.inl (by decide))⟩

/-- The stage after `handleFormulation`: EDA on any success-with-data
result, otherwise unchanged. -/
theorem handleFormulation_stage_eq (m : String) (s : WorkflowSession) (o : RouterOracles) :
    (handleFormulation m s o).session.currentStage =
      (if ((formulationExecute m s.sharedContext o.form).result.success &&
           (formulationExecute m s.sharedContext o.form).result.data.isSome) = true then
        WorkflowStage.eda
      else s.currentStage) := by
  unfold handleFormulation
  dsimp only
  split
  · rename_i data hsucc hdata
    rw [hsucc, hdata]
    simp
  · rename_i hno
    have hcond : ((formulationExecute m s.sharedContext o.form).result.success &&
        (formulationExecute m s.sharedContext o.form).result.data.isSome) = false := by
      cases hsucc : (formulationExecute m s.sharedContext o.form).result.success
      · simp
      · cases hdata : (formulationExecute m s.sharedContext o.form).result.data with
        | none => simp [hdata]
        | some d => exact (hno d hsucc hdata).elim
    simp [hcond]

/-- `handleEstimation` never changes the stage. -/
theorem handleEstimation_stage (s : WorkflowSession) (o : RouterOracles) :
    (handleEstimation s o).session.currentStage = s.currentStage := by
  unfold handleEstimation
  split
  · rfl
  · dsimp only
    split
    · rfl
    · rfl

/-- The stage after `handleWorkflowControl`: unchanged, or Estimation (via
the affirmative EDA dispatch), or Formulation on an explicit restart. -/
theorem handleWorkflowControl_stage (a : String) (s : WorkflowSession) (o : RouterOracles) :
    (handleWorkflowControl a s o).session.currentStage = s.currentStage ∨
    (handleWorkflowControl a s o).session.currentStage = WorkflowStage.estimation ∨
    (a = "restart" ∧
      (handleWorkflowControl a s o).session.currentStage = WorkflowStage.formulation) := by
  unfold handleWorkflowControl
  split
  · split
    · left; rfl
    · split
      · have h := handleEDA_stage_eq s o
        dsimp only
        rw [h]
        split
        · left; rfl
        · split
          · right; left; rfl
          · left; rfl
      · left; rfl
  · split
    · rename_i hrestart
      right; right
      exact ⟨by simpa using hrestart, rfl⟩
    · split
      · left; rfl
      · left; rfl

/-! ## C3 -/

/-- C3 counterexample: with the session at the Estimation stage, a
successful formulation dispatch moves `currentStage` back to EDA — an
auto-advance that moves the stage backward in the fixed order. -/
theorem c3_counterexample :
    sessEst.currentStage = WorkflowStage.estimation ∧
    (executePlan prFormC3 "Does aspirin reduce heart attacks?" sessEst oFormOk).session.currentStage
      = WorkflowStage.eda ∧
    stageIdx WorkflowStage.eda < stageIdx WorkflowStage.estimation := by
  decide

/-- C3 amended: auto-advance only ever sets `currentStage` to EDA or
Estimation (never to DAG or Identification, and never past Estimation;
`Formulation` re-appears only through a workflow-control restart), and
the EDA advance itself never moves the stage backward — but the
formulation advance sets the stage to EDA even from a later stage. -/
theorem c3_stage_codomain (pr : PlannerResult) (m : String) (s : WorkflowSession)
    (o : RouterOracles) :
    ((executePlan pr m s o).session.currentStage = s.currentStage ∨
     (executePlan pr m s o).session.currentStage = WorkflowStage.eda ∨
     (executePlan pr m s o).session.currentStage = WorkflowStage.estimation ∨
     (pr.intent.type = IntentType.workflow_control ∧
      (executePlan pr m s o).session.currentStage = WorkflowStage.formulation)) ∧
    (∀ (s2 : WorkflowSession) (o2 : RouterOracles),
      stageIdx s2.currentStage ≤ stageIdx (handleEDA s2 o2).session.currentStage) := by
  constructor
  · by_cases hpre : 0 < (checkPrerequisites pr s.sharedContext).length
    · rw [executePlan_shortcircuit pr m s o hpre]
      left; rfl
    · have hsession : (executePlan pr m s o).session =
          (dispatchIntent pr m
            { s with sharedContext := mergeCausalSpec pr.causalSpec s.sharedContext }
            o).session := by
        unfold executePlan
        simp [hpre]
      rw [hsession]
      have hstage : ({ s with
          sharedContext := mergeCausalSpec pr.causalSpec s.sharedContext :
            WorkflowSession }).currentStage = s.currentStage := rfl
      unfold dispatchIntent
      split
      · rw [handleFormulation_stage_eq, hstage]
        split
        · right; left; rfl
        · left; rfl
      · rw [handleEDA_stage_eq, hstage]
        split
        · left; rfl
        · split
          · right; right; left; rfl
          · left; rfl
      · rw [handleEstimation_stage, hstage]
        left; rfl
      · rename_i heq
        rcases handleWorkflowControl_stage
            (strOr pr.intent.subtype "continue")
            { s with sharedContext := mergeCausalSpec pr.causalSpec s.sharedContext } o
          with h | h | ⟨-, h⟩
        · left; rw [h]
        · right; right; left; exact h
        · right; right; right; exact ⟨heq, h⟩
      · left; rfl
      · unfold handleGeneralQuestion
        split
        · left; rfl
        · split
          · left; rfl
          · left; rfl
      · left; rfl
      · left; rfl
  · intro s2 o2
    rw [handleEDA_stage_eq]
    have hmax : ∀ st : WorkflowStage, stageIdx st ≤ 4 := by
      intro st; cases st <;> simp [stageIdx]
    split
    · exact Nat.le_refl _
    · split
      · exact hmax _
      · exact Nat.le_refl _

/-! ## C4 -/

/-- C4 counterexample: the formulation agent's iteration result (critical
issue, LOW feasibility) has `requiresIteration = true`, yet
`handleFormulation` still advances the stage from Formulation to EDA. -/
theorem c4_counterexample :
    (formulationExecute "Does X affect Y?" startSession.sharedContext oFormIter.form).result.requiresIteration
      = true ∧
    (formulationExecute "Does X affect Y?" startSession.sharedContext oFormIter.form).result.success
      = true ∧
    startSession.currentStage = WorkflowStage.formulation ∧
    (handleFormulation "Does X affect Y?" startSession oFormIter).session.currentStage
      = WorkflowStage.eda ∧
    WorkflowStage.eda ≠ WorkflowStage.formulation := by
  decide

/-- C4 amended: the router does not advance on `requiresIteration` results
of the EDA agent, and the estimation handler never advances; but
`handleFormulation` advances to EDA on every success-with-data result,
including iteration results, so a formulation `requiresIteration` result
still moves the stage. -/
theorem c4_iteration_no_advance :
    (∀ (s : WorkflowSession) (o : RouterOracles),
      (edaExecute s.sharedContext o.eda).result.requiresIteration = true →
      (handleEDA s o).session.currentStage = s.currentStage) ∧
    (∀ (s : WorkflowSession) (o : RouterOracles),
      (handleEstimation s o).session.currentStage = s.currentStage) ∧
    (∀ (m : String) (s : WorkflowSession) (o : RouterOracles),
      ((formulationExecute m s.sharedContext o.form).result.success &&
       (formulationExecute m s.sharedContext o.form).result.data.isSome) = true →
      (handleFormulation m s o).session.currentStage = WorkflowStage.eda) := by
  refine ⟨?_, ?_, ?_⟩
  · intro s o hit
    rcases edaExecute_cases s.sharedContext o.eda with ⟨-, -, hr⟩ | ⟨d, hd, -, hr⟩
    · rw [hit] at hr
      exact absurd hr.symm Bool.false_ne_true
    · rw [hit] at hr
      have h2 : d.violations.filter (fun v => v.severity == "critical") ≠ [] := by
        simpa [List.isEmpty_iff] using hr.symm
      have h3 : d.violations ≠ [] := by
        intro h0; rw [h0] at h2; simp at h2
      have hne : d.violations.isEmpty = false := by simp [List.isEmpty_iff, h3]
      rw [handleEDA_stage_eq]
      split
      · rfl
      · simp [hd, hne]
  · intro s o
    exact handleEstimation_stage s o
  · intro m s o hc
    rw [handleFormulation_stage_eq, if_pos hc]

/-- C4 witness: a critical-violation EDA run keeps the session at EDA,
and a success-with-data formulation run lands the stage on EDA. -/
theorem c4_witness :
    (edaExecute sessEda.sharedContext oEdaCritical.eda).result.requiresIteration = true ∧
    (handleEDA sessEda oEdaCritical).session.currentStage = sessEda.currentStage ∧
    ((formulationExecute "q" startSession.sharedContext oFormOk.form).result.success &&
     (formulationExecute "q" startSession.sharedContext oFormOk.form).result.data.isSome) = true ∧
    (handleFormulation "q" startSession oFormOk).session.currentStage = WorkflowStage.eda := by
  have h := c4_iteration_no_advance
  refine ⟨by decide, h.1 sessEda oEdaCritical (by decide), by decide, ?_⟩
  exact h.2.2 "q" startSession oFormOk (by decide)

/-! ## C5 -/

/-- C5 counterexample: for the message `"hello"`, the fallback classifier
returns confidence 0.95 — not ≤ 0.6 — with a greeting-specific reasoning
string that does not state the result came from a fallback. -/
theorem c5_counterexample :
    (fallbackAnalysis "hello" {}).confidence = 0.95 ∧
    ¬((fallbackAnalysis "hello" {}).confidence ≤ 0.6) ∧
    (fallbackAnalysis "hello" {}).reasoning = "Detected greeting or introduction request" ∧
    (fallbackAnalysis "hello" {}).reasoning ≠ fallbackReasoning := by
  have hc : (fallbackAnalysis "hello" ({} : SharedContext)).confidence = 0.95 := rfl
  refine ⟨hc, ?_, rfl, by decide⟩
  rw [hc]
  norm_num

/-- C5 amended: on the fallback path, only the keyword-stage and generic
branches return confidence 0.6 with a reasoning string stating the
fallback; the greeting, help and affirmative early returns carry 0.95,
0.9 and 0.85 with pattern-specific reasonings. -/
theorem c5_fallback_confidence (message : String) (context : SharedContext) :
    ((fallbackAnalysis message context).confidence = 0.95 ∧
     (fallbackAnalysis message context).reasoning =
       "Detected greeting or introduction request") ∨
    ((fallbackAnalysis message context).confidence = 0.9 ∧
     (fallbackAnalysis message context).reasoning = "Detected help request") ∨
    ((fallbackAnalysis message context).confidence = 0.85 ∧
     (fallbackAnalysis message context).reasoning = "Detected affirmative response") ∨
    ((fallbackAnalysis message context).confidence = 0.6 ∧
     (fallbackAnalysis message context).reasoning = fallbackReasoning) := by
  unfold fallbackAnalysis
  dsimp only
  split
  · left; exact ⟨rfl, rfl⟩
  · split
    · right; left; exact ⟨rfl, rfl⟩
    · split
      · right; right; left; exact ⟨rfl, rfl⟩
      · right; right; right; exact ⟨rfl, rfl⟩

/-! ## C6 -/

/-- C6: the single-character message `"y"` is classified by the fallback
path as `workflow_control` with subtype `affirmative` and confidence
0.85, not as `general_question` (the affirmative check runs before the
generic branch and the greeting checks do not fire on `"y"`). -/
theorem c6_affirmative_y (context : SharedContext) :
    (fallbackAnalysis "y" context).intent.type = IntentType.workflow_control ∧
    (fallbackAnalysis "y" context).intent.subtype = some "affirmative" ∧
    (fallbackAnalysis "y" context).confidence = 0.85 ∧
    (fallbackAnalysis "y" context).intent.type ≠ IntentType.general_question := by
  have h1 : (fallbackAnalysis "y" context).intent.type = IntentType.workflow_control := rfl
  refine ⟨h1, rfl, rfl, ?_⟩
  rw [h1]
  decide

/-! ## C7 -/

/-- C7 counterexample: for the Scenario B message with an empty context,
`checkPrerequisites` returns three strings — and none of them is the
claimed `"treatment and outcome must be defined"`. -/
theorem c7_counterexample :
    checkPrerequisites c7Planner ({} : SharedContext) =
      [datasetMissingStr, formulationMissingStr, edaMissingStr] ∧
    checkPrerequisites c7Planner ({} : SharedContext) ≠
      ["treatment and outcome must be defined"] := by
  decide

/-- `prereqStageStep` at the Formulation stage with missing fields. -/
theorem prereqStageStep_formulation (ctx : SharedContext) (acc : List String)
    (hcond : (!(strTruthy ctx.treatment) || !(strTruthy ctx.outcome)) = true) :
    prereqStageStep ctx acc WorkflowStage.formulation = acc ++ [formulationMissingStr] := by
  unfold prereqStageStep
  simp [hcond]

/-- `prereqStageStep` at the EDA stage with a missing dataset. -/
theorem prereqStageStep_eda (ctx : SharedContext) (acc : List String)
    (hds : ctx.dataset = none) :
    prereqStageStep ctx acc WorkflowStage.eda = acc ++ [edaMissingStr] := by
  unfold prereqStageStep
  simp [hds]

/-- The formulation missing-precondition string survives the stage fold
whenever the Formulation stage is required and its fields are missing. -/
theorem formulation_mem_stage_foldl (ctx : SharedContext)
    (hcond : (!(strTruthy ctx.treatment) || !(strTruthy ctx.outcome)) = true) :
    ∀ (l : List WorkflowStage) (acc : List String),
      WorkflowStage.formulation ∈ l →
      formulationMissingStr ∈ l.foldl (prereqStageStep ctx) acc := by
  intro l
  induction l with
  | nil => intro acc h; simp at h
  | cons b t ih =>
    intro acc hmem
    simp only [List.foldl_cons]
    rcases List.mem_cons.mp hmem with hb | ht
    · apply mem_foldl_of_append _ (prereqStageStep_append ctx)
      rw [← hb, prereqStageStep_formulation ctx acc hcond]
      simp
    · exact ih _ ht

/-- The EDA missing-precondition string survives the stage fold whenever
the EDA stage is required and the dataset is missing. -/
theorem eda_mem_stage_foldl (ctx : SharedContext) (hds : ctx.dataset = none) :
    ∀ (l : List WorkflowStage) (acc : List String),
      WorkflowStage.eda ∈ l →
      edaMissingStr ∈ l.foldl (prereqStageStep ctx) acc := by
  intro l
  induction l with
  | nil => intro acc h; simp at h
  | cons b t ih =>
    intro acc hmem
    simp only [List.foldl_cons]
    rcases List.mem_cons.mp hmem with hb | ht
    · apply mem_foldl_of_append _ (prereqStageStep_append ctx)
      rw [← hb, prereqStageStep_eda ctx acc hds]
      simp
    · exact ih _ ht

/-- C7 amended: the prerequisite checker adds the dataset string when the
intent requires a dataset and none is loaded, and the stage-specific
strings when a required prior stage's defining fields are absent; for the
Scenario B message with an empty context it returns the three source
strings (not `["treatment and outcome must be defined"]`) and the
Estimation agent is never invoked. -/
theorem c7_check_prerequisites :
    (∀ (pr : PlannerResult) (ctx : SharedContext),
      pr.intent.requiresDataset = true → ctx.dataset = none →
      datasetMissingStr ∈ checkPrerequisites pr ctx) ∧
    (∀ (pr : PlannerResult) (ctx : SharedContext),
      WorkflowStage.formulation ∈ pr.intent.requiresPriorStages →
      (!(strTruthy ctx.treatment) || !(strTruthy ctx.outcome)) = true →
      formulationMissingStr ∈ checkPrerequisites pr ctx) ∧
    (∀ (pr : PlannerResult) (ctx : SharedContext),
      WorkflowStage.eda ∈ pr.intent.requiresPriorStages →
      ctx.dataset = none →
      edaMissingStr ∈ checkPrerequisites pr ctx) ∧
    (checkPrerequisites c7Planner startSession.sharedContext =
      [datasetMissingStr, formulationMissingStr, edaMissingStr] ∧
     (executePlan c7Planner "estimate the effect" startSession oStub).session = startSession ∧
     (executePlan c7Planner "estimate the effect" startSession oStub).events =
       [ChatEvent.assistant (prereqMessage
         [datasetMissingStr, formulationMissingStr, edaMissingStr])] ∧
     ∀ st, ChatEvent.agentInvoked st ∉
       (executePlan c7Planner "estimate the effect" startSession oStub).events) := by
  refine ⟨?_, ?_, ?_, ?_⟩
  · intro pr ctx hreq hds
    unfold checkPrerequisites
    dsimp only
    rw [if_pos (by simp [hreq, hds, Option.isNone_iff_eq_none])]
    apply mem_foldl_of_append _ (prereqPlanStep_append ctx)
    apply mem_foldl_of_append _ (prereqStageStep_append ctx)
    simp
  · intro pr ctx hmem hcond
    unfold checkPrerequisites
    dsimp only
    apply mem_foldl_of_append _ (prereqPlanStep_append ctx)
    exact formulation_mem_stage_foldl ctx hcond _ _ hmem
  · intro pr ctx hmem hds
    unfold checkPrerequisites
    dsimp only
    apply mem_foldl_of_append _ (prereqPlanStep_append ctx)
    exact eda_mem_stage_foldl ctx hds _ _ hmem
  · have h : checkPrerequisites c7Planner startSession.sharedContext =
        [datasetMissingStr, formulationMissingStr, edaMissingStr] := by decide
    have hl : 0 < (checkPrerequisites c7Planner startSession.sharedContext).length := by
      rw [h]; decide
    have hsc := executePlan_shortcircuit c7Planner "estimate the effect" startSession oStub hl
    refine ⟨h, ?_, ?_, ?_⟩
    · rw [hsc]
    · rw [hsc, h]
    · intro st hmem
      rw [hsc] at hmem
      simp at hmem

/-- C7 witness: the general rules fire on the Scenario B planner result
and an empty context. -/
theorem c7_witness :
    datasetMissingStr ∈ checkPrerequisites c7Planner ({} : SharedContext) ∧
    formulationMissingStr ∈ checkPrerequisites c7Planner ({} : SharedContext) ∧
    edaMissingStr ∈ checkPrerequisites c7Planner ({} : SharedContext) := by
  have h := c7_check_prerequisites
  exact ⟨h.1 c7Planner {} (by decide) rfl,
         h.2.1 c7Planner {} (by decide) (by decide),
         h.2.2.1 c7Planner {} (by decide) rfl⟩

/-! ## C8 -/

/-- C8: `EstimationAgent.execute` fails with an error and a remediation
hint — without calling the completion service — when treatment or outcome
is missing; with both set but no (or an empty) adjustment set it instead
returns success with `requiresIteration = true` and a warning feedback,
again without calling the service. -/
theorem c8_estimation_gates (context : SharedContext) (o : EstOracle) :
    ((!(strTruthy context.treatment) || !(strTruthy context.outcome)) = true →
      (estimationExecute context o).result.success = false ∧
      (estimationExecute context o).result.error =
        some "Treatment and outcome must be defined for estimation" ∧
      (estimationExecute context o).result.feedback =
        some { type := FeedbackType.error
               message := "Treatment and outcome must be defined for estimation"
               suggestedAction := some "Complete earlier workflow stages first" } ∧
      (estimationExecute context o).serviceCalled = false) ∧
    ((!(strTruthy context.treatment) || !(strTruthy context.outcome)) = false →
      (context.adjustmentSet = none ∨ context.adjustmentSet = some []) →
      (estimationExecute context o).result.success = true ∧
      (estimationExecute context o).result.requiresIteration = true ∧
      (estimationExecute context o).result.feedback =
        some { type := FeedbackType.warning
               message := "No adjustment set specified"
               suggestedAction := some
                 "Complete the Identification stage to determine which variables to adjust for" } ∧
      (estimationExecute context o).serviceCalled = false) := by
  constructor
  · intro hcond
    unfold estimationExecute
    rw [if_pos hcond]
    exact ⟨rfl, rfl, rfl, rfl⟩
  · intro hcond hadj
    unfold estimationExecute
    rw [if_neg (by simp [hcond])]
    rw [if_pos ?_]
    · exact ⟨rfl, rfl, rfl, rfl⟩
    · rcases hadj with h | h <;> simp [h]

/-- C8 witness: an empty context takes the error gate; a formulated
context without an adjustment set takes the iteration gate. -/
theorem c8_witness :
    (estimationExecute ({} : SharedContext) oStub.est).result.success = false ∧
    (estimationExecute ({} : SharedContext) oStub.est).serviceCalled = false ∧
    (estimationExecute ctxNoAdj oStub.est).result.success = true ∧
    (estimationExecute ctxNoAdj oStub.est).result.requiresIteration = true ∧
    (estimationExecute ctxNoAdj oStub.est).serviceCalled = false := by
  have h1 := (c8_estimation_gates ({} : SharedContext) oStub.est).1 (by decide)
  have h2 := (c8_estimation_gates ctxNoAdj oStub.est).2 (by decide) (Or.inl rfl)
  exact ⟨h1.1, h1.2.2.2, h2.1, h2.2.1, h2.2.2.2⟩

/-! ## C9: preservation of the `confounders` field -/

/-- The formulation agent never touches `confounders`. -/
theorem formulationExecute_confounders (m : String) (ctx : SharedContext) (o : FormOracle) :
    (formulationExecute m ctx o).ctx.confounders = ctx.confounders := by
  unfold formulationExecute
  split
  · rfl
  · dsimp only
    split
    · rfl
    · rfl

/-- The EDA agent does not mutate the context at all. -/
theorem edaExecute_ctx (ctx : SharedContext) (o : EdaOracle) :
    (edaExecute ctx o).ctx = ctx := by
  unfold edaExecute
  split
  · rfl
  · split
    · rfl
    · dsimp only
      split
      · rfl
      · rfl

/-- The estimation agent writes only `estimate`. -/
theorem estimationExecute_confounders (ctx : SharedContext) (o : EstOracle) :
    (estimationExecute ctx o).ctx.confounders = ctx.confounders := by
  unfold estimationExecute
  split
  · rfl
  · split
    · rfl
    · split
      · rfl
      · rfl

/-- The causal-spec merge keeps `confounders` defined. -/
theorem mergeCausalSpec_confounders (cs : CausalSpecification) (ctx : SharedContext)
    (h : ctx.confounders.isSome = true) :
    ((mergeCausalSpec cs ctx).confounders).isSome = true := by
  unfold mergeCausalSpec
  dsimp only
  split
  · rename_i hc
    simp_all
  · split <;> split <;> simp_all

/-- `handleFormulation` keeps `confounders` defined. -/
theorem handleFormulation_confounders (m : String) (s : WorkflowSession)
    (o : RouterOracles) (h : (s.sharedContext.confounders).isSome = true) :
    (((handleFormulation m s o).session.sharedContext.confounders)).isSome = true := by
  have hrun := formulationExecute_confounders m s.sharedContext o.form
  unfold handleFormulation
  dsimp only
  split
  · split <;> split <;> simp_all
  · simp_all

/-- `handleEDA` does not change the shared context. -/
theorem handleEDA_sharedContext (s : WorkflowSession) (o : RouterOracles) :
    (handleEDA s o).session.sharedContext = s.sharedContext := by
  unfold handleEDA
  split
  · rfl
  · dsimp only
    split
    · split
      · rfl
      · rfl
    · rfl

/-- `handleEstimation` keeps `confounders` defined. -/
theorem handleEstimation_confounders (s : WorkflowSession) (o : RouterOracles)
    (h : (s.sharedContext.confounders).isSome = true) :
    ((handleEstimation s o).session.sharedContext.confounders).isSome = true := by
  have hrun := estimationExecute_confounders s.sharedContext o.est
  unfold handleEstimation
  dsimp only
  split
  · simp_all
  · split <;> simp_all

/-- `handleWorkflowControl` keeps `confounders` defined. -/
theorem handleWorkflowControl_confounders (a : String) (s : WorkflowSession)
    (o : RouterOracles) (h : (s.sharedContext.confounders).isSome = true) :
    ((handleWorkflowControl a s o).session.sharedContext.confounders).isSome = true := by
  unfold handleWorkflowControl
  split
  · split
    · exact h
    · split
      · dsimp only
        rw [handleEDA_sharedContext]
        exact h
      · exact h
  · split
    · rfl
    · split
      · exact h
      · exact h

/-- `dispatchIntent` keeps `confounders` defined. -/
theorem dispatchIntent_confounders (pr : PlannerResult) (m : String)
    (s : WorkflowSession) (o : RouterOracles)
    (h : (s.sharedContext.confounders).isSome = true) :
    ((dispatchIntent pr m s o).session.sharedContext.confounders).isSome = true := by
  unfold dispatchIntent
  split
  · exact handleFormulation_confounders m s o h
  · rw [handleEDA_sharedContext]; exact h
  · exact handleEstimation_confounders s o h
  · exact handleWorkflowControl_confounders _ s o h
  · exact h
  · unfold handleGeneralQuestion
    split
    · exact h
    · split
      · exact h
      · exact h
  · exact h
  · exact h

/-- `executePlan` keeps `confounders` defined. -/
theorem executePlan_confounders (pr : PlannerResult) (m : String)
    (s : WorkflowSession) (o : RouterOracles)
    (h : (s.sharedContext.confounders).isSome = true) :
    ((executePlan pr m s o).session.sharedContext.confounders).isSome = true := by
  by_cases hpre : 0 < (checkPrerequisites pr s.sharedContext).length
  · rw [executePlan_shortcircuit pr m s o hpre]
    exact h
  · have hsession : (executePlan pr m s o).session =
        (dispatchIntent pr m
          { s with sharedContext := mergeCausalSpec pr.causalSpec s.sharedContext }
          o).session := by
      unfold executePlan
      simp [hpre]
    rw [hsession]
    exact dispatchIntent_confounders pr m _ o (mergeCausalSpec_confounders _ _ h)

/-- The pre-planner session mutation keeps `confounders` defined. -/
theorem preparedSession_confounders (m : String) (s : WorkflowSession)
    (h : (s.sharedContext.confounders).isSome = true) :
    ((preparedSession m s).sharedContext.confounders).isSome = true := by
  unfold preparedSession
  dsimp only
  split <;> simp_all

/-- `processUserMessage` keeps `confounders` defined. -/
theorem processUserMessage_confounders (m : String) (p : Option PlannerResult)
    (s : WorkflowSession) (o : RouterOracles)
    (h : (s.sharedContext.confounders).isSome = true) :
    ((processUserMessage m p s o).session.sharedContext.confounders).isSome = true := by
  unfold processUserMessage
  dsimp only
  split
  · exact preparedSession_confounders m s h
  · rename_i plannerResult
    exact executePlan_confounders plannerResult m _ o (preparedSession_confounders m s h)

/-- The workflow step spread always yields defined `confounders`. -/
theorem spreadWithConfounders_isSome (c : Option SharedContext) :
    ((spreadWithConfounders c).confounders).isSome = true := by
  unfold spreadWithConfounders
  cases c with
  | none => rfl
  | some ctx =>
    dsimp only
    split <;> rfl

/-- The formulation workflow step yields defined `confounders`. -/
theorem formulationStepRun_confounders (m : String) (c : Option SharedContext)
    (o : FormOracle) : ((formulationStepRun m c o).2.confounders).isSome = true := by
  have hrun := formulationExecute_confounders m (spreadWithConfounders c) o
  have hspread := spreadWithConfounders_isSome c
  unfold formulationStepRun
  dsimp only
  split <;> simp_all

/-- The EDA workflow step passes the context through unchanged. -/
theorem edaStepRun_ctx (ctx : SharedContext) (o : EdaOracle) :
    (edaStepRun ctx o).2 = ctx := by
  have hrun := edaExecute_ctx ctx o
  unfold edaStepRun
  split
  · rfl
  · dsimp only
    split <;> simp_all

/-- The estimation workflow step keeps `confounders` defined. -/
theorem estimationStepRun_confounders (ctx : SharedContext) (o : EstOracle)
    (h : (ctx.confounders).isSome = true) :
    ((estimationStepRun ctx o).2.confounders).isSome = true := by
  have hrun := estimationExecute_confounders
    { ctx with adjustmentSet := some (ctx.confounders.getD []) } o
  unfold estimationStepRun
  simp_all

/-- The full three-step chain yields defined `confounders`. -/
theorem causalWorkflowChain_confounders (m : String) (c : Option SharedContext)
    (o : RouterOracles) :
    ((causalWorkflowChain m c o).confounders).isSome = true := by
  unfold causalWorkflowChain
  dsimp only
  rw [edaStepRun_ctx]
  exact estimationStepRun_confounders _ _ (formulationStepRun_confounders m c o.form)

/-- `executeFullWorkflow` keeps `confounders` defined, also on the path
that replaces the shared context wholesale with the chain output. -/
theorem executeFullWorkflow_confounders (m status : String) (s : WorkflowSession)
    (o : RouterOracles) (h : (s.sharedContext.confounders).isSome = true) :
    ((executeFullWorkflow m status s o).session.sharedContext.confounders).isSome = true := by
  unfold executeFullWorkflow
  dsimp only
  split
  · exact causalWorkflowChain_confounders m (some s.sharedContext) o
  · exact h

/-- Every session operation keeps `confounders` defined. -/
theorem applyOp_confounders (s : WorkflowSession) (op : SessionOp)
    (h : (s.sharedContext.confounders).isSome = true) :
    ((applyOp s op).sharedContext.confounders).isSome = true := by
  cases op with
  | processMessage m p o => exact processUserMessage_confounders m p s o h
  | fullWorkflow m status threw o =>
    unfold applyOp
    cases threw
    · simpa using executeFullWorkflow_confounders m status s o h
    · simpa using h
  | restartSession => rfl

/-- C9: across the entire session lifetime — session creation and every
subsequent orchestrator operation, including the full-workflow path that
replaces `sharedContext` wholesale — `sharedContext.confounders` is never
undefined: it starts as the empty array and stays a defined array. -/
theorem c9_confounders_invariant (ops : List SessionOp) :
    startSession.sharedContext.confounders = some [] ∧
    ((runSession ops).sharedContext.confounders).isSome = true := by
  refine ⟨rfl, ?_⟩
  unfold runSession
  have key : ∀ (l : List SessionOp) (s : WorkflowSession),
      (s.sharedContext.confounders).isSome = true →
      ((l.foldl applyOp s).sharedContext.confounders).isSome = true := by
    intro l
    induction l with
    | nil => intro s h; simpa using h
    | cons op t ih =>
      intro s h
      simp only [List.foldl_cons]
      exact ih (applyOp s op) (applyOp_confounders s op h)
  exact key ops startSession rfl

/-! ## C10 -/

/-- `strOr` with a non-empty default is never empty. -/
theorem strOr_ne_empty (v : Option String) (d : String) (hd : d ≠ "") :
    strOr v d ≠ "" := by
  unfold strOr
  split
  · exact hd
  · split
    · exact hd
    · assumption

/-- Every parse path yields a non-empty `treatment`. -/
theorem parseFormulationResponse_treatment_ne (jp : String → Option FormJson)
    (r q : String) : (parseFormulationResponse jp r q).treatment ≠ "" := by
  unfold parseFormulationResponse
  split
  · split
    · exact strOr_ne_empty _ _ (by decide)
    · simp [formulationParseFailResult]
  · unfold parseStructuredText
    exact strOr_ne_empty _ _ (by decide)

/-- Every parse path yields a non-empty `outcome`. -/
theorem parseFormulationResponse_outcome_ne (jp : String → Option FormJson)
    (r q : String) : (parseFormulationResponse jp r q).outcome ≠ "" := by
  unfold parseFormulationResponse
  split
  · split
    · exact strOr_ne_empty _ _ (by decide)
    · simp [formulationParseFailResult]
  · unfold parseStructuredText
    exact strOr_ne_empty _ _ (by decide)

/-- With truthy treatment and outcome, the formulation missing-
precondition string never appears in the prerequisite check. -/
theorem formulationMissing_not_mem (pr : PlannerResult) (ctx : SharedContext)
    (ht : strTruthy ctx.treatment = true) (ho : strTruthy ctx.outcome = true) :
    formulationMissingStr ∉ checkPrerequisites pr ctx := by
  have hfStage : ∀ (acc : List String) (b : WorkflowStage),
      formulationMissingStr ∉ acc → formulationMissingStr ∉ prereqStageStep ctx acc b := by
    intro acc b hx
    unfold prereqStageStep
    dsimp only
    have h1 : ¬ ((b = WorkflowStage.formulation &&
        (!(strTruthy ctx.treatment) || !(strTruthy ctx.outcome))) = true) := by
      simp [ht, ho]
    rw [if_neg h1]
    split
    · intro hmem
      rcases List.mem_append.mp hmem with hm | hm
      · exact hx hm
      · rw [List.mem_singleton] at hm
        exact absurd hm (by decide)
    · exact hx
  have hfPlan : ∀ (acc : List String) (p : String),
      formulationMissingStr ∉ acc → formulationMissingStr ∉ prereqPlanStep ctx acc p := by
    intro acc p hx
    unfold prereqPlanStep
    split
    · rename_i hcond
      split
      · intro hmem
        rcases List.mem_append.mp hmem with hm | hm
        · exact hx hm
        · rw [List.mem_singleton] at hm
          have h2 : strIncludes (toLowerStr formulationMissingStr) "dataset" = false := by
            decide
          rw [← hm, h2] at hcond
          simp at hcond
      · exact hx
    · exact hx
  unfold checkPrerequisites
  dsimp only
  apply not_mem_foldl _ _ hfPlan
  apply not_mem_foldl _ _ hfStage
  split
  · decide
  · simp

/-- After a non-throwing run, the formulation agent has overwritten the
context's treatment and outcome with the parsed values. -/
theorem formulationExecute_ok_ctx (m r : String) (jp : String → Option FormJson)
    (ctx : SharedContext) :
    (formulationExecute m ctx { response := Except.ok r, jp := jp }).ctx =
      { ctx with treatment := some (parseFormulationResponse jp r m).treatment
                 outcome := some (parseFormulationResponse jp r m).outcome } := by
  unfold formulationExecute
  dsimp only
  split <;> rfl

/-- C10: whenever `FormulationAgent.execute` completes without the
completion-service call throwing, it unconditionally overwrites
`context.treatment` and `context.outcome` with the parsed values — on
strict-parse failure the placeholder is `"Unable to extract treatment"`,
on a JSON object missing the field it is `"Not specified"` — so both
fields are truthy afterwards and the Formulation prerequisite check
passes on subsequent turns. -/
theorem c10_formulation_placeholder_overwrite (researchQuestion response : String)
    (jp : String → Option FormJson) (context : SharedContext) :
    ((formulationExecute researchQuestion context
        { response := Except.ok response, jp := jp }).ctx.treatment =
      some (parseFormulationResponse jp response researchQuestion).treatment) ∧
    ((formulationExecute researchQuestion context
        { response := Except.ok response, jp := jp }).ctx.outcome =
      some (parseFormulationResponse jp response researchQuestion).outcome) ∧
    strTruthy (formulationExecute researchQuestion context
        { response := Except.ok response, jp := jp }).ctx.treatment = true ∧
    strTruthy (formulationExecute researchQuestion context
        { response := Except.ok response, jp := jp }).ctx.outcome = true ∧
    (∀ pr : PlannerResult, formulationMissingStr ∉
      checkPrerequisites pr (formulationExecute researchQuestion context
        { response := Except.ok response, jp := jp }).ctx) ∧
    (parseFormulationResponse (fun _ => none) "\x7b \x7d" "q").treatment =
      "Unable to extract treatment" ∧
    (parseFormulationResponse (fun _ => some {}) "\x7b \x7d" "q").treatment =
      "Not specified" := by
  rw [formulationExecute_ok_ctx]
  have ht : strTruthy (some (parseFormulationResponse jp response researchQuestion).treatment)
      = true := by
    simp [strTruthy, parseFormulationResponse_treatment_ne jp response researchQuestion]
  have ho : strTruthy (some (parseFormulationResponse jp response researchQuestion).outcome)
      = true := by
    simp [strTruthy, parseFormulationResponse_outcome_ne jp response researchQuestion]
  refine ⟨rfl, rfl, ht, ho, ?_, by decide, by decide⟩
  intro pr
  exact formulationMissing_not_mem pr _ ht ho

end Causol
